import Mathlib

/-!
Verification of the joypad-os input-routing and per-device protocol engine.

Each definition below is a shallow embedding of a function of the C source
tree (`src/`), translated statement by statement; machine integers become
`Nat` (with explicit masks where overflow matters) and signed C division
becomes `Int.tdiv`.  The canonical button vocabulary (`JP_BUTTON_*`) and the
canonical event constructor (`init_input_event`) live in headers that are not
part of the provided sources, so they are modelled from the specification and
marked as such.
-/

set_option maxRecDepth 10000

/-- Canonical button vocabulary.  Modelled from the spec: `buttons` is a
32-bit set over the named semantic buttons (D-pad, face, shoulder, system,
extra); the concrete bit positions are assigned in `core/buttons.h`, which is
not among the provided sources, so button states are modelled as finite sets
over this vocabulary. -/
inductive JPButton where
  | DU | DD | DL | DR
  | B1 | B2 | B3 | B4
  | L1 | R1 | L2 | R2
  | L3 | R3 | L4 | R4
  | S1 | S2
  | A1 | A2 | A3 | A4
deriving DecidableEq, Repr

/-- Canonical input event (`input_event_t`); the six analog channels are the
array `analog[ANALOG_LX .. ANALOG_R2]` of the source, given here as named
fields. -/
structure InputEvent where
  buttons : Finset JPButton
  lx : Nat
  ly : Nat
  rx : Nat
  ry : Nat
  l2 : Nat
  r2 : Nat
  battery_level : Nat
  battery_charging : Bool
deriving DecidableEq

/-- Modelled from the spec: `init_input_event` / `make_event()` is declared in
`core/input_event.h`, which is not among the provided sources.  Per spec §4.1
the constructor zeroes the event with sentinel defaults: sticks = 128,
triggers = 0, buttons = 0, and the remaining fields zeroed. -/
def init_input_event : InputEvent :=
  { buttons := ∅, lx := 128, ly := 128, rx := 128, ry := 128,
    l2 := 0, r2 := 0, battery_level := 0, battery_charging := false }

/-- Conditional singleton used to transcribe the C idiom
`if (cond) buttons |= JP_BUTTON_X;` into a set union. -/
def btn (b : JPButton) (cond : Bool) : Finset JPButton :=
  if cond then {b} else ∅

/-- Reduction of a `uint32_t` value. -/
def u32 (n : Nat) : Nat := n % 4294967296

/-- Transcription of the C driver idiom `(int32_t)(now - target) >= 0` on
`uint32_t` timestamps: the wrapped difference, read as a signed 32-bit value,
is nonnegative. -/
def time_reached (now target : Nat) : Bool :=
  (u32 now + 4294967296 - u32 target) % 4294967296 < 2147483648

/-- Transcription of the C driver idiom
`(int32_t)(now - base) >= bound` (with `0 ≤ bound < 2^31`) on `uint32_t`
timestamps. -/
def time_elapsed_ge (now base bound : Nat) : Bool :=
  let d := (u32 now + 4294967296 - u32 base) % 4294967296
  decide (d < 2147483648 ∧ bound ≤ d)

/-- Byte access `data[i]` on a report buffer (`const uint8_t*`), reduced to
the 8-bit range of the C type; every access in the embedded functions is
guarded by the same length checks as in the C source, so the default is never
observed on the guarded paths. -/
def byteAt (data : List Nat) (i : Nat) : Nat := data.getD i 0 % 256

namespace Bitdo

/-- Hat switch lookup table `HAT_TO_DPAD` of
`bthid_8bitdo_ultimate.c` (packed dpad bits: bit0=up, bit1=right,
bit2=down, bit3=left). -/
def HAT_TO_DPAD : List Nat := [1, 3, 2, 6, 4, 12, 8, 9, 0]

/-- Axis helper `scale_axis` of `bthid_8bitdo_ultimate.c`: maps 0 to 1,
every other byte passes through. -/
def scale_axis (raw : Nat) : Nat := if raw = 0 then 1 else raw

/-- Report decoder `bitdo_process_report` of `bthid_8bitdo_ultimate.c`
(lines 166-227).  Returns the event handed to `router_submit_input`, or
`none` when the report is dropped.  `ev` is the driver's cached
`gp->event`. -/
def bitdo_process_report (ev : InputEvent) (data : List Nat) : Option InputEvent :=
  let len := data.length
  if len < 1 ∨ byteAt data 0 ≠ 0x03 then none
  else if len ≤ 9 then none
  else
    let hat := byteAt data 1 &&& 0x0F
    let dpad := if hat ≤ 8 then HAT_TO_DPAD.getD hat 0 else 0
    let lo := byteAt data 8
    let hi := byteAt data 9
    let buttons :=
      btn .DU (dpad &&& 0x01 ≠ 0) ∪ btn .DR (dpad &&& 0x02 ≠ 0) ∪
      btn .DD (dpad &&& 0x04 ≠ 0) ∪ btn .DL (dpad &&& 0x08 ≠ 0) ∪
      btn .B1 (lo &&& 0x01 ≠ 0) ∪ btn .B2 (lo &&& 0x02 ≠ 0) ∪
      btn .B3 (lo &&& 0x04 ≠ 0) ∪ btn .B4 (lo &&& 0x08 ≠ 0) ∪
      btn .L1 (lo &&& 0x10 ≠ 0) ∪ btn .R1 (lo &&& 0x20 ≠ 0) ∪
      btn .L2 (lo &&& 0x40 ≠ 0) ∪ btn .R2 (lo &&& 0x80 ≠ 0) ∪
      btn .S1 (hi &&& 0x01 ≠ 0) ∪ btn .S2 (hi &&& 0x02 ≠ 0) ∪
      btn .L3 (hi &&& 0x04 ≠ 0) ∪ btn .R3 (hi &&& 0x08 ≠ 0) ∪
      btn .A1 (hi &&& 0x10 ≠ 0) ∪ btn .A2 (hi &&& 0x20 ≠ 0) ∪
      btn .A3 (hi &&& 0x40 ≠ 0) ∪ btn .A4 (hi &&& 0x80 ≠ 0)
    some { ev with
      buttons := buttons,
      lx := scale_axis (byteAt data 2),
      ly := scale_axis (byteAt data 3),
      rx := scale_axis (byteAt data 4),
      ry := scale_axis (byteAt data 5),
      l2 := byteAt data 7,
      r2 := byteAt data 6 }

end Bitdo

namespace GenericHid

/-- Axis scaling `scale_analog` of `bthid_gamepad.c` (lines 66-73), with
`mid = max_value / 2`; all quantities involved are nonnegative in C, so the
integer divisions coincide with `Nat` division.  (In C the divisions are
unguarded; see the divisor analysis below.) -/
def scale_analog (value : Nat) (max_value : Nat) : Nat :=
  let mid := max_value / 2
  if value ≤ mid then 1 + (value * 127) / mid
  else 128 + ((value - mid) * 127) / (max_value - mid)

/-- Divisor actually used by `scale_analog` on a given input: `mid` on the
low branch, `max_value - mid` on the high branch.  The C code performs the
corresponding division with no zero guard. -/
def scale_analog_divisor (value : Nat) (max_value : Nat) : Nat :=
  let mid := max_value / 2
  if value ≤ mid then mid else max_value - mid

/-- Caller-side guard of `process_report_dynamic` (`bthid_gamepad.c` lines
207-224): an axis is scaled exactly when its recorded logical maximum is
nonzero (`if (map->xLoc.max)`). -/
def axis_guard (max_value : Nat) : Bool := max_value ≠ 0

/-- Stick-axis assembly of `process_report_dynamic` (`bthid_gamepad.c`
lines 204-224 and 282-286): the axis defaults to 128, is scaled through
`scale_analog` when the guard passes, and is finally clamped away from 0
(`if (lx == 0) lx = 1;`).  `value` is the field extracted from the report. -/
def dynamic_stick_axis (value : Nat) (max_value : Nat) : Nat :=
  let a := if axis_guard max_value then scale_analog value max_value else 128
  if a = 0 then 1 else a

end GenericHid

namespace Switch2

/-- Product id `SW2_GC_PID` of `switch2_ble.c`. -/
def SW2_GC_PID : Nat := 0x2073

/-- Button bit positions `SW2_*` in the 32-bit button field of
`switch2_ble.c`. -/
def SW2_Y : Nat := 0
def SW2_X : Nat := 1
def SW2_B : Nat := 2
def SW2_A : Nat := 3
def SW2_R : Nat := 6
def SW2_ZR : Nat := 7
def SW2_MINUS : Nat := 8
def SW2_PLUS : Nat := 9
def SW2_RJ : Nat := 10
def SW2_LJ : Nat := 11
def SW2_HOME : Nat := 12
def SW2_CAPTURE : Nat := 13
def SW2_C : Nat := 14
def SW2_GR : Nat := 24
def SW2_GL : Nat := 25
def SW2_DOWN : Nat := 16
def SW2_UP : Nat := 17
def SW2_RIGHT : Nat := 18
def SW2_LEFT : Nat := 19
def SW2_L : Nat := 22
def SW2_ZL : Nat := 23

/-- Axis constants of `switch2_ble.c`. -/
def SW2_PRO_AXIS_RANGE : Nat := 1610
def SW2_GC_AXIS_RANGE : Nat := 1225
def SW2_GC_CSTICK_RANGE : Nat := 1120

/-- Calibration sample count `CAL_SAMPLES_NEEDED` of `switch2_ble.c`. -/
def CAL_SAMPLES_NEEDED : Nat := 4

/-- Axis helper `scale_analog_calibrated` of `switch2_ble.c` (lines 93-105):
signed 32-bit arithmetic, C division truncating toward zero (`Int.tdiv`),
result clamped to `[-128, 127]` and shifted to `[0, 255]`. -/
def scale_analog_calibrated (val center range : Nat) : Nat :=
  let centered : Int := (val : Int) - (center : Int)
  let scaled0 : Int := Int.tdiv (centered * 127) (range : Int)
  let scaled1 : Int := if scaled0 < -128 then -128 else scaled0
  let scaled2 : Int := if scaled1 > 127 then 127 else scaled1
  (scaled2 + 128).toNat

/-- Per-device driver state `switch2_ble_data_t` of `switch2_ble.c`
(calibration fields and the cached event). -/
structure Sw2Data where
  event : InputEvent
  pid : Nat
  cal_lx_center : Nat
  cal_ly_center : Nat
  cal_rx_center : Nat
  cal_ry_center : Nat
  cal_samples : Nat
deriving DecidableEq

/-- Raw 12-bit axis extraction of `switch2_ble_process_report` (lines
245-248) from the 63-byte report body. -/
def raw_lx (r : List Nat) : Nat := byteAt r 10 ||| ((byteAt r 11 &&& 0x0F) <<< 8)
def raw_ly (r : List Nat) : Nat := (byteAt r 11 >>> 4) ||| (byteAt r 12 <<< 4)
def raw_rx (r : List Nat) : Nat := byteAt r 13 ||| ((byteAt r 14 &&& 0x0F) <<< 8)
def raw_ry (r : List Nat) : Nat := (byteAt r 14 >>> 4) ||| (byteAt r 15 <<< 4)

/-- Bit test `sw2_buttons & (1 << bit)` of `switch2_ble.c`. -/
def sw2bit (w bit : Nat) : Bool := w &&& (1 <<< bit) ≠ 0

/-- Report decoder `switch2_ble_process_report` of `switch2_ble.c` (lines
166-353).  Returns the updated driver state together with the event handed to
`router_submit_input` (`none` while the report is dropped or consumed for
calibration). -/
def switch2_ble_process_report (sw2 : Sw2Data) (data : List Nat) :
    Sw2Data × Option InputEvent :=
  let len := data.length
  if len ≥ 64 ∧ byteAt data 0 = 0xA1 ∨ len ≥ 63 then
    let report := if len ≥ 64 ∧ byteAt data 0 = 0xA1 then data.drop 1 else data
    let report_len := report.length
    if report_len < 16 then (sw2, none)
    else
      let rlx := raw_lx report
      let rly := raw_ly report
      let rrx := raw_rx report
      let rry := raw_ry report
      if sw2.cal_samples < CAL_SAMPLES_NEEDED then
        let sw2' :=
          if sw2.cal_samples = 0 then
            { sw2 with cal_lx_center := rlx, cal_ly_center := rly,
                       cal_rx_center := rrx, cal_ry_center := rry }
          else
            { sw2 with cal_lx_center := (sw2.cal_lx_center + rlx) / 2,
                       cal_ly_center := (sw2.cal_ly_center + rly) / 2,
                       cal_rx_center := (sw2.cal_rx_center + rrx) / 2,
                       cal_ry_center := (sw2.cal_ry_center + rry) / 2 }
        ({ sw2' with cal_samples := sw2'.cal_samples + 1 }, none)
      else
        let is_gc := sw2.pid = SW2_GC_PID
        let left_range := if is_gc then SW2_GC_AXIS_RANGE else SW2_PRO_AXIS_RANGE
        let right_range := if is_gc then SW2_GC_CSTICK_RANGE else SW2_PRO_AXIS_RANGE
        let lx := scale_analog_calibrated rlx sw2.cal_lx_center left_range
        let ly := 255 - scale_analog_calibrated rly sw2.cal_ly_center left_range
        let rx := scale_analog_calibrated rrx sw2.cal_rx_center right_range
        let ry := 255 - scale_analog_calibrated rry sw2.cal_ry_center right_range
        let lt := if report_len ≥ 62 then byteAt report 60 else 0
        let rt := if report_len ≥ 62 then byteAt report 61 else 0
        let w := byteAt report 4 ||| (byteAt report 5 <<< 8) |||
                 (byteAt report 6 <<< 16) ||| (byteAt report 7 <<< 24)
        let buttons :=
          btn .B1 (sw2bit w SW2_B) ∪ btn .B2 (sw2bit w SW2_A) ∪
          btn .B3 (sw2bit w SW2_Y) ∪ btn .B4 (sw2bit w SW2_X) ∪
          (if sw2.pid = SW2_GC_PID then
            btn .L2 (sw2bit w SW2_L) ∪ btn .R2 (sw2bit w SW2_R) ∪
            btn .L1 (sw2bit w SW2_ZL) ∪ btn .R1 (sw2bit w SW2_ZR)
          else
            btn .L1 (sw2bit w SW2_L) ∪ btn .R1 (sw2bit w SW2_R) ∪
            btn .L2 (sw2bit w SW2_ZL) ∪ btn .R2 (sw2bit w SW2_ZR)) ∪
          btn .S1 (sw2bit w SW2_MINUS) ∪ btn .S2 (sw2bit w SW2_PLUS) ∪
          btn .L3 (sw2bit w SW2_LJ) ∪ btn .R3 (sw2bit w SW2_RJ) ∪
          btn .DU (sw2bit w SW2_UP) ∪ btn .DD (sw2bit w SW2_DOWN) ∪
          btn .DL (sw2bit w SW2_LEFT) ∪ btn .DR (sw2bit w SW2_RIGHT) ∪
          btn .A1 (sw2bit w SW2_HOME) ∪ btn .A2 (sw2bit w SW2_CAPTURE) ∪
          btn .A3 (sw2bit w SW2_C) ∪
          btn .L4 (sw2bit w SW2_GL) ∪ btn .R4 (sw2bit w SW2_GR)
        let ev := { sw2.event with
          buttons := buttons, lx := lx, ly := ly, rx := rx, ry := ry,
          l2 := lt, r2 := rt }
        ({ sw2 with event := ev }, some ev)
  else (sw2, none)

/-- Iterated report processing: feed a list of reports through the driver,
collecting the submitted events in order. -/
def runReports (sw2 : Sw2Data) (reports : List (List Nat)) :
    Sw2Data × List InputEvent :=
  match reports with
  | [] => (sw2, [])
  | d :: rest =>
      let (sw2', out) := switch2_ble_process_report sw2 d
      let (sw2'', outs) := runReports sw2' rest
      (sw2'', (out.toList) ++ outs)

end Switch2

namespace WiiU

/-- Connect state machine `wii_u_state_t` of `wii_u_pro_bt.c` (lines
78-94), in the declaration order of the C enum. -/
inductive Phase where
  | idle
  | wait_init
  | send_status_req
  | wait_status
  | send_ext_init1
  | wait_ext_init1_ack
  | send_ext_init2
  | wait_ext_init2_ack
  | read_ext_type
  | wait_ext_type
  | send_report_mode
  | wait_report_ack
  | send_led
  | wait_led_ack
  | ready
deriving DecidableEq, Repr

/-- Numeric value of a phase, matching the C enum order; the source compares
states with `<` (`wii->state < WII_U_STATE_WAIT_LED_ACK`). -/
def Phase.idx : Phase → Nat
  | .idle => 0
  | .wait_init => 1
  | .send_status_req => 2
  | .wait_status => 3
  | .send_ext_init1 => 4
  | .wait_ext_init1_ack => 5
  | .send_ext_init2 => 6
  | .wait_ext_init2_ack => 7
  | .read_ext_type => 8
  | .wait_ext_type => 9
  | .send_report_mode => 10
  | .wait_report_ack => 11
  | .send_led => 12
  | .wait_led_ack => 13
  | .ready => 14

/-- Timing constants of `wii_u_pro_bt.c` (`WII_U_INIT_DELAY_MS`,
`WII_U_INIT_MAX_RETRIES`, `WII_U_KEEPALIVE_MS`). -/
def WII_U_INIT_DELAY_MS : Nat := 100
def WII_U_INIT_MAX_RETRIES : Nat := 5
def WII_U_KEEPALIVE_MS : Nat := 30000

/-- Button masks `WIIU_BTN_*` of `wii_u_pro_bt.c` (after inversion). -/
def WIIU_BTN_R : Nat := 0x00002
def WIIU_BTN_PLUS : Nat := 0x00004
def WIIU_BTN_HOME : Nat := 0x00008
def WIIU_BTN_MINUS : Nat := 0x00010
def WIIU_BTN_L : Nat := 0x00020
def WIIU_BTN_DOWN : Nat := 0x00040
def WIIU_BTN_RIGHT : Nat := 0x00080
def WIIU_BTN_UP : Nat := 0x00100
def WIIU_BTN_LEFT : Nat := 0x00200
def WIIU_BTN_ZR : Nat := 0x00400
def WIIU_BTN_X : Nat := 0x00800
def WIIU_BTN_A : Nat := 0x01000
def WIIU_BTN_Y : Nat := 0x02000
def WIIU_BTN_B : Nat := 0x04000
def WIIU_BTN_ZL : Nat := 0x08000
def WIIU_BTN_R3 : Nat := 0x10000
def WIIU_BTN_L3 : Nat := 0x20000

/-- Stick constants of `wii_u_pro_bt.c`. -/
def WIIU_STICK_CENTER : Nat := 2048
def WIIU_STICK_RANGE : Nat := 1200

/-- Axis helper `scale_stick` of `wii_u_pro_bt.c` (lines 115-133): clamp the
raw 16-bit value to `center ± range`, scale with signed division truncating
toward zero, then clamp the result to `[1, 255]`. -/
def scale_stick (val : Nat) : Nat :=
  let val1 := if val < WIIU_STICK_CENTER - WIIU_STICK_RANGE
              then WIIU_STICK_CENTER - WIIU_STICK_RANGE else val
  let val2 := if val1 > WIIU_STICK_CENTER + WIIU_STICK_RANGE
              then WIIU_STICK_CENTER + WIIU_STICK_RANGE else val1
  let centered : Int := (val2 : Int) - (WIIU_STICK_CENTER : Int)
  let scaled0 : Int := Int.tdiv (centered * 127) (WIIU_STICK_RANGE : Int) + 128
  let scaled1 : Int := if scaled0 < 1 then 1 else scaled0
  let scaled2 : Int := if scaled1 > 255 then 255 else scaled1
  scaled2.toNat

/-- Per-device driver state `wii_u_pro_data_t` of `wii_u_pro_bt.c`. -/
structure WiiUData where
  event : InputEvent
  player_led : Nat
  rumble_on : Bool
  phase : Phase
  init_time : Nat
  init_retries : Nat
  last_keepalive : Nat
  last_report : Nat
deriving DecidableEq

/-- Commands the driver transmits to the controller
(`btstack_wiimote_send_raw` payloads, identified by report id and
arguments). -/
inductive Cmd where
  | status_req
  | write_data (addr : Nat) (val : Nat)
  | read_data (addr : Nat) (size : Nat)
  | report_mode (flags : Nat) (mode : Nat)
  | leds (pattern : Nat)
  | rumble (enabled : Bool)
deriving DecidableEq, Repr

/-- Extension-payload decoder shared by the `0x3D`/`0x35`/`0x34` branches of
`wii_u_process_report` (`wii_u_pro_bt.c` lines 327-384): four little-endian
16-bit sticks, three inverted button bytes, battery flags in `ext[10]`. -/
def parse_ext (ev : InputEvent) (ext : List Nat) : InputEvent :=
  let lx := byteAt ext 0 ||| (byteAt ext 1 <<< 8)
  let rx := byteAt ext 2 ||| (byteAt ext 3 <<< 8)
  let ly := byteAt ext 4 ||| (byteAt ext 5 <<< 8)
  let ry := byteAt ext 6 ||| (byteAt ext 7 <<< 8)
  let raw_buttons := (byteAt ext 8 &&& 0xFE) ||| (byteAt ext 9 <<< 8) |||
                     ((byteAt ext 10 &&& 0x03) <<< 16)
  let pressed := 4294967295 - raw_buttons
  let buttons :=
    btn .B1 (pressed &&& WIIU_BTN_B ≠ 0) ∪ btn .B2 (pressed &&& WIIU_BTN_A ≠ 0) ∪
    btn .B3 (pressed &&& WIIU_BTN_Y ≠ 0) ∪ btn .B4 (pressed &&& WIIU_BTN_X ≠ 0) ∪
    btn .L1 (pressed &&& WIIU_BTN_L ≠ 0) ∪ btn .R1 (pressed &&& WIIU_BTN_R ≠ 0) ∪
    btn .L2 (pressed &&& WIIU_BTN_ZL ≠ 0) ∪ btn .R2 (pressed &&& WIIU_BTN_ZR ≠ 0) ∪
    btn .S1 (pressed &&& WIIU_BTN_MINUS ≠ 0) ∪ btn .S2 (pressed &&& WIIU_BTN_PLUS ≠ 0) ∪
    btn .L3 (pressed &&& WIIU_BTN_L3 ≠ 0) ∪ btn .R3 (pressed &&& WIIU_BTN_R3 ≠ 0) ∪
    btn .A1 (pressed &&& WIIU_BTN_HOME ≠ 0) ∪
    btn .DU (pressed &&& WIIU_BTN_UP ≠ 0) ∪ btn .DD (pressed &&& WIIU_BTN_DOWN ≠ 0) ∪
    btn .DL (pressed &&& WIIU_BTN_LEFT ≠ 0) ∪ btn .DR (pressed &&& WIIU_BTN_RIGHT ≠ 0)
  let battery_raw := (byteAt ext 10 >>> 4) &&& 0x07
  { ev with
    buttons := buttons,
    lx := scale_stick lx, ly := 255 - scale_stick ly,
    rx := scale_stick rx, ry := 255 - scale_stick ry,
    battery_level := if battery_raw ≥ 4 then 100 else battery_raw * 25,
    battery_charging := byteAt ext 10 &&& 0x04 = 0 }

/-- First-data-report state adjustment shared by the `0x3D` and `0x35`
branches of `wii_u_process_report` (lines 310-323 and 388-400): when no data
report has been seen yet, force the LED step or go `READY` depending on how
far the init machine got. -/
def first_report_phase (p : Phase) : Phase :=
  if p.idx < Phase.wait_led_ack.idx then .send_led
  else if p = .wait_led_ack then .ready
  else p

/-- Report handler `wii_u_process_report` of `wii_u_pro_bt.c` (lines
295-589).  `now` is the value `platform_time_us()` returns during the call.
Returns the updated driver state and the events handed to
`router_submit_input`. -/
def wii_u_process_report (wii : WiiUData) (data : List Nat) (now : Nat) :
    WiiUData × List InputEvent :=
  let len := data.length
  let report_id := byteAt data 0
  if len < 1 then (wii, [])
  else if report_id = 0x3D ∧ len ≥ 22 then
    let wii1 := if wii.last_report = 0
                then { wii with phase := first_report_phase wii.phase } else wii
    let wii2 := { wii1 with last_report := now }
    let ev := parse_ext wii2.event (data.drop 1)
    ({ wii2 with event := ev }, [ev])
  else if report_id = 0x35 ∧ len ≥ 22 then
    let wii1 := if wii.last_report = 0
                then { wii with phase := first_report_phase wii.phase } else wii
    let wii2 := { wii1 with last_report := now }
    let ev := parse_ext wii2.event (data.drop 6)
    ({ wii2 with event := ev }, [ev])
  else if report_id = 0x34 ∧ len ≥ 22 then
    let wii1 := if wii.phase ≠ .ready then { wii with phase := .ready } else wii
    let ev := parse_ext wii1.event (data.drop 3)
    ({ wii1 with event := ev }, [ev])
  else if report_id = 0x20 ∧ len ≥ 7 then
    let flags := byteAt data 3
    let extension_connected := flags &&& 0x02 ≠ 0
    if wii.phase = .wait_status then
      if extension_connected then ({ wii with phase := .send_ext_init1 }, [])
      else ({ wii with phase := .send_led }, [])
    else (wii, [])
  else if report_id = 0x22 ∧ len ≥ 5 then
    let acked_report := byteAt data 3
    let error_code := byteAt data 4
    if error_code = 0 then
      if wii.phase = .wait_ext_init1_ack ∧ acked_report = 0x16 then
        ({ wii with phase := .send_ext_init2 }, [])
      else if wii.phase = .wait_ext_init2_ack ∧ acked_report = 0x16 then
        ({ wii with phase := .read_ext_type }, [])
      else if wii.phase = .wait_report_ack ∧ acked_report = 0x12 then
        ({ wii with phase := .send_led }, [])
      else if wii.phase = .wait_led_ack ∧ acked_report = 0x11 then
        ({ wii with phase := .ready, last_keepalive := now, last_report := 0 }, [])
      else (wii, [])
    else (wii, [])
  else if report_id = 0x21 ∧ len ≥ 7 then
    if wii.phase = .wait_ext_type then
      ({ wii with phase := .send_report_mode }, [])
    else (wii, [])
  else (wii, [])

/-- View of the feedback service consulted in the `READY` branch of
`wii_u_task`.  Modelled from the spec: `find_player_index` and
`feedback_get_state` belong to the player-manager and feedback services
(`core/services/players/*`), which are not among the provided sources; per
spec §4.6 the state carries rumble and LED values with dirty flags.  `none`
plays the role of `find_player_index` returning a negative index. -/
structure Feedback where
  player_idx : Nat
  rumble_left : Nat
  rumble_right : Nat
  rumble_dirty : Bool
  led_pattern : Nat
  led_dirty : Bool
deriving DecidableEq

/-- Modelled from the spec: `PLAYER_LEDS[1..7]` is the canonical 4-bit LED
pattern per player index (spec §4.1, e.g. `1 = 0b0001`, `5 = 0b1001`); the
defining header is not among the provided sources. -/
def PLAYER_LEDS : List Nat := [0, 1, 2, 4, 8, 9, 10, 12]

/-- Task handler `wii_u_task` of `wii_u_pro_bt.c` (lines 591-811), one
main-loop tick.  `now` is `platform_time_us()`; `can_send` is
`btstack_wiimote_can_send`; `fb` is the feedback view for the device's player
slot (`none` when `find_player_index` fails).  Returns the updated state and
the transmitted commands in order. -/
def wii_u_task (wii : WiiUData) (now : Nat) (can_send : Bool)
    (fb : Option Feedback) : WiiUData × List Cmd :=
  match wii.phase with
  | .wait_init =>
      if time_reached now wii.init_time
      then ({ wii with phase := .send_status_req }, [])
      else (wii, [])
  | .send_status_req =>
      if can_send then
        ({ wii with phase := .wait_status, init_time := u32 (now + 1000000) },
         [.status_req])
      else (wii, [])
  | .wait_status =>
      if time_reached now wii.init_time then
        if wii.init_retries + 1 < WII_U_INIT_MAX_RETRIES then
          ({ wii with init_retries := wii.init_retries + 1,
                      phase := .send_status_req }, [])
        else
          ({ wii with init_retries := 0, phase := .send_ext_init1 }, [])
      else (wii, [])
  | .send_ext_init1 =>
      if can_send then
        ({ wii with phase := .wait_ext_init1_ack, init_time := u32 (now + 1000000) },
         [.write_data 0xA400F0 0x55])
      else (wii, [])
  | .wait_ext_init1_ack =>
      if time_reached now wii.init_time then
        if wii.init_retries + 1 < WII_U_INIT_MAX_RETRIES then
          ({ wii with init_retries := wii.init_retries + 1,
                      phase := .send_ext_init1 }, [])
        else
          ({ wii with init_retries := 0, phase := .send_ext_init2 }, [])
      else (wii, [])
  | .send_ext_init2 =>
      if can_send then
        ({ wii with phase := .wait_ext_init2_ack, init_time := u32 (now + 1000000) },
         [.write_data 0xA400FB 0x00])
      else (wii, [])
  | .wait_ext_init2_ack =>
      if time_reached now wii.init_time then
        if wii.init_retries + 1 < WII_U_INIT_MAX_RETRIES then
          ({ wii with init_retries := wii.init_retries + 1,
                      phase := .send_ext_init2 }, [])
        else
          ({ wii with init_retries := 0, phase := .read_ext_type }, [])
      else (wii, [])
  | .read_ext_type =>
      if can_send then
        ({ wii with phase := .wait_ext_type, init_time := u32 (now + 1000000) },
         [.read_data 0xA400FA 6])
      else (wii, [])
  | .wait_ext_type =>
      if time_reached now wii.init_time then
        if wii.init_retries + 1 < WII_U_INIT_MAX_RETRIES then
          ({ wii with init_retries := wii.init_retries + 1,
                      phase := .read_ext_type }, [])
        else
          ({ wii with init_retries := 0, phase := .send_report_mode }, [])
      else (wii, [])
  | .send_report_mode =>
      if can_send then
        ({ wii with phase := .wait_report_ack, init_time := u32 (now + 1000000) },
         [.report_mode 0x04 0x3d])
      else (wii, [])
  | .wait_report_ack =>
      if time_reached now wii.init_time then
        if wii.init_retries + 1 < WII_U_INIT_MAX_RETRIES then
          ({ wii with init_retries := wii.init_retries + 1,
                      phase := .send_report_mode }, [])
        else
          ({ wii with init_retries := 0, phase := .send_led }, [])
      else (wii, [])
  | .send_led =>
      if can_send then
        ({ wii with player_led := 0x10, phase := .wait_led_ack,
                    init_time := u32 (now + 1000000) },
         [.leds 0x10])
      else (wii, [])
  | .wait_led_ack =>
      if time_reached now wii.init_time then
        if wii.init_retries + 1 < WII_U_INIT_MAX_RETRIES then
          ({ wii with init_retries := wii.init_retries + 1,
                      phase := .send_led }, [])
        else
          ({ wii with init_retries := 0, phase := .ready,
                      last_keepalive := now, last_report := 0 }, [])
      else (wii, [])
  | .ready =>
      let (wii1, cmds1) :=
        match fb with
        | none => (wii, [])
        | some f =>
            let (wiiA, cmdsA) :=
              if f.rumble_dirty then
                let rumble_wanted := f.rumble_left > 0 ∨ f.rumble_right > 0
                if rumble_wanted ≠ (wii.rumble_on = true) then
                  if can_send then
                    ({ wii with rumble_on := rumble_wanted },
                     [Cmd.rumble rumble_wanted])
                  else (wii, [])
                else (wii, [])
              else (wii, [])
            let led := if f.led_pattern ≠ 0 then (f.led_pattern <<< 4) % 256
                       else (PLAYER_LEDS.getD (f.player_idx + 1) 0 <<< 4) % 256
            if f.led_dirty ∨ led ≠ wiiA.player_led then
              if can_send then
                ({ wiiA with player_led := led }, cmdsA ++ [Cmd.leds led])
              else (wiiA, cmdsA)
            else (wiiA, cmdsA)
      if time_elapsed_ge now wii1.last_keepalive (WII_U_KEEPALIVE_MS * 1000) then
        if can_send then
          ({ wii1 with last_keepalive := now }, cmds1 ++ [Cmd.status_req])
        else (wii1, cmds1)
      else (wii1, cmds1)
  | .idle => (wii, [])

end WiiU

namespace Wiimote

/-- Connect state machine `wiimote_state_t` of `wiimote_bt.c` (lines
122-138). -/
inductive Phase where
  | idle
  | wait_init
  | send_status_req
  | wait_status
  | send_ext_init1
  | wait_ext_init1_ack
  | send_ext_init2
  | wait_ext_init2_ack
  | read_ext_type
  | wait_ext_type
  | send_report_mode
  | wait_report_ack
  | send_led
  | wait_led_ack
  | ready
deriving DecidableEq, Repr

/-- Extension types `wiimote_ext_type_t` of `wiimote_bt.c` (lines 70-76). -/
inductive ExtType where
  | ext_none
  | nunchuk
  | classic
  | classic_mini
  | guitar
deriving DecidableEq, Repr

/-- Detected orientation `wiimote_orient_t` of `wiimote_bt.c` (lines
141-144). -/
inductive Orient where
  | horizontal
  | vertical
deriving DecidableEq, Repr

/-- Orientation mode setting `WII_ORIENT_MODE_*` used by `wiimote_bt.c`; the
constants are declared in `wiimote_bt.h`, which is not among the provided
sources, but the `.c` file fixes the vocabulary {auto, horizontal,
vertical}. -/
inductive OrientMode where
  | auto_detect
  | horizontal
  | vertical
deriving DecidableEq, Repr

/-- Accelerometer thresholds of `wiimote_bt.c` (`WII_ACCEL_CENTER`,
`WII_ACCEL_THRESH_ON`, `WII_ACCEL_THRESH_OFF`). -/
def WII_ACCEL_CENTER : Nat := 128
def WII_ACCEL_THRESH_ON : Nat := 20
def WII_ACCEL_THRESH_OFF : Nat := 12

/-- Core button masks `WII_BTN_*` of `wiimote_bt.c`. -/
def WII_BTN_LEFT : Nat := 0x0001
def WII_BTN_RIGHT : Nat := 0x0002
def WII_BTN_DOWN : Nat := 0x0004
def WII_BTN_UP : Nat := 0x0008
def WII_BTN_PLUS : Nat := 0x0010
def WII_BTN_TWO : Nat := 0x0100
def WII_BTN_ONE : Nat := 0x0200
def WII_BTN_B : Nat := 0x0400
def WII_BTN_A : Nat := 0x0800
def WII_BTN_MINUS : Nat := 0x1000
def WII_BTN_HOME : Nat := 0x8000

/-- Nunchuk button bits of `wiimote_bt.c`. -/
def WII_BTN_Z : Nat := 0x01
def WII_BTN_C : Nat := 0x02

/-- Classic Controller button masks `WII_CC_BTN_*` of `wiimote_bt.c`. -/
def WII_CC_BTN_RT : Nat := 0x0002
def WII_CC_BTN_PLUS : Nat := 0x0004
def WII_CC_BTN_HOME : Nat := 0x0008
def WII_CC_BTN_MINUS : Nat := 0x0010
def WII_CC_BTN_LT : Nat := 0x0020
def WII_CC_BTN_DOWN : Nat := 0x0040
def WII_CC_BTN_RIGHT : Nat := 0x0080
def WII_CC_BTN_UP : Nat := 0x0100
def WII_CC_BTN_LEFT : Nat := 0x0200
def WII_CC_BTN_ZR : Nat := 0x0400
def WII_CC_BTN_X : Nat := 0x0800
def WII_CC_BTN_A : Nat := 0x1000
def WII_CC_BTN_Y : Nat := 0x2000
def WII_CC_BTN_B : Nat := 0x4000
def WII_CC_BTN_ZL : Nat := 0x8000

/-- Guitar Hero button masks `GH_BTN_*` of `wiimote_bt.c`. -/
def GH_BTN_STRUM_DOWN : Nat := 0x0040
def GH_BTN_MINUS : Nat := 0x0010
def GH_BTN_PLUS : Nat := 0x0004
def GH_BTN_STRUM_UP : Nat := 0x0100
def GH_BTN_GREEN : Nat := 0x1000
def GH_BTN_RED : Nat := 0x4000
def GH_BTN_YELLOW : Nat := 0x0800
def GH_BTN_BLUE : Nat := 0x2000
def GH_BTN_ORANGE : Nat := 0x8000

/-- Orientation detector `wiimote_detect_orientation` of `wiimote_bt.c`
(lines 243-263): signed deviation of the X accelerometer byte from 128, with
on/off hysteresis thresholds 20 and 12. -/
def wiimote_detect_orientation (accel_x : Nat) (current : Orient) : Orient :=
  let d : Int := (accel_x : Int) - (WII_ACCEL_CENTER : Int)
  let x_dev : Int := if d < 0 then -d else d
  if current = .vertical then
    if x_dev ≥ (WII_ACCEL_THRESH_ON : Int) then .horizontal else current
  else
    if x_dev < (WII_ACCEL_THRESH_OFF : Int) then .vertical else current

/-- Control rotation `wiimote_rotate_controls` of `wiimote_bt.c` (lines
268-296): in horizontal orientation the D-pad is rotated 90 degrees
counter-clockwise and the face buttons are swapped in pairs; all other
buttons pass through. -/
def wiimote_rotate_controls (buttons : Finset JPButton) (orient : Orient) :
    Finset JPButton :=
  if orient = .vertical then buttons
  else
    let dpad_mask : Finset JPButton := {.DU, .DD, .DL, .DR}
    let face_mask : Finset JPButton := {.B1, .B2, .B3, .B4}
    let dpad := buttons ∩ dpad_mask
    let face := buttons ∩ face_mask
    let other := buttons \ (dpad_mask ∪ face_mask)
    let rotated_dpad :=
      btn .DL (JPButton.DU ∈ dpad) ∪ btn .DD (JPButton.DL ∈ dpad) ∪
      btn .DR (JPButton.DD ∈ dpad) ∪ btn .DU (JPButton.DR ∈ dpad)
    let swapped_face :=
      btn .B3 (JPButton.B1 ∈ face) ∪ btn .B4 (JPButton.B2 ∈ face) ∪
      btn .B1 (JPButton.B3 ∈ face) ∪ btn .B2 (JPButton.B4 ∈ face)
    other ∪ rotated_dpad ∪ swapped_face

/-- Per-device driver state `wiimote_data_t` of `wiimote_bt.c`, together with
the file-scope orientation-mode global `wiimote_orient_mode` (shared across
Wiimotes in C; carried here as a state field). -/
structure WiimoteData where
  event : InputEvent
  phase : Phase
  init_time : Nat
  init_retries : Nat
  last_keepalive : Nat
  ext_type : ExtType
  extension_connected : Bool
  player_led : Nat
  rumble_on : Bool
  orientation : Orient
  orient_hotkey_active : Bool
  orient_mode : OrientMode
deriving DecidableEq

/-- Core-button extraction of `wiimote_process_report` (line 364):
`(data[1] & 0x1F) | ((data[2] & 0x9F) << 8)`. -/
def core_raw_buttons (data : List Nat) : Nat :=
  (byteAt data 1 &&& 0x1F) ||| ((byteAt data 2 &&& 0x9F) <<< 8)

/-- Core-button mapping of `wiimote_process_report` (lines 366-383). -/
def core_button_map (raw : Nat) : Finset JPButton :=
  btn .DU (raw &&& WII_BTN_UP ≠ 0) ∪ btn .DD (raw &&& WII_BTN_DOWN ≠ 0) ∪
  btn .DL (raw &&& WII_BTN_LEFT ≠ 0) ∪ btn .DR (raw &&& WII_BTN_RIGHT ≠ 0) ∪
  btn .B2 (raw &&& WII_BTN_A ≠ 0) ∪ btn .B1 (raw &&& WII_BTN_B ≠ 0) ∪
  btn .B3 (raw &&& WII_BTN_ONE ≠ 0) ∪ btn .B4 (raw &&& WII_BTN_TWO ≠ 0) ∪
  btn .S1 (raw &&& WII_BTN_MINUS ≠ 0) ∪ btn .S2 (raw &&& WII_BTN_PLUS ≠ 0) ∪
  btn .A1 (raw &&& WII_BTN_HOME ≠ 0)

/-- Extension decoding of `wiimote_process_report` (lines 460-589): given the
six-plus extension bytes and the current extension type, add the extension's
buttons and write its analog channels into the cached event. -/
def ext_decode (ext_type : ExtType) (_extension_connected : Bool)
    (ext : List Nat) (ev : InputEvent) (buttons : Finset JPButton) :
    InputEvent × Finset JPButton :=
  match ext_type with
  | .nunchuk =>
      let ext_buttons := 255 - byteAt ext 5
      let buttons' := buttons ∪ btn .L2 (ext_buttons &&& WII_BTN_Z ≠ 0) ∪
                      btn .L1 (ext_buttons &&& WII_BTN_C ≠ 0)
      ({ ev with lx := byteAt ext 0, ly := 255 - byteAt ext 1 }, buttons')
  | .classic =>
      let lx := byteAt ext 0 &&& 0x3F
      let ly := byteAt ext 1 &&& 0x3F
      let rx := ((byteAt ext 0 >>> 3) &&& 0x18) ||| ((byteAt ext 1 >>> 5) &&& 0x06) |||
                ((byteAt ext 2 >>> 7) &&& 0x01)
      let ry := byteAt ext 2 &&& 0x1F
      let lt := ((byteAt ext 2 >>> 5) &&& 0x03) ||| ((byteAt ext 3 >>> 2) &&& 0x1C)
      let rt := byteAt ext 3 &&& 0x1F
      let cc_buttons := 65535 - (byteAt ext 4 ||| (byteAt ext 5 <<< 8))
      let buttons' := buttons ∪
        btn .B1 (cc_buttons &&& WII_CC_BTN_B ≠ 0) ∪ btn .B2 (cc_buttons &&& WII_CC_BTN_A ≠ 0) ∪
        btn .B3 (cc_buttons &&& WII_CC_BTN_Y ≠ 0) ∪ btn .B4 (cc_buttons &&& WII_CC_BTN_X ≠ 0) ∪
        btn .L1 (cc_buttons &&& WII_CC_BTN_LT ≠ 0) ∪ btn .R1 (cc_buttons &&& WII_CC_BTN_RT ≠ 0) ∪
        btn .L2 (cc_buttons &&& WII_CC_BTN_ZL ≠ 0) ∪ btn .R2 (cc_buttons &&& WII_CC_BTN_ZR ≠ 0) ∪
        btn .S1 (cc_buttons &&& WII_CC_BTN_MINUS ≠ 0) ∪ btn .S2 (cc_buttons &&& WII_CC_BTN_PLUS ≠ 0) ∪
        btn .A1 (cc_buttons &&& WII_CC_BTN_HOME ≠ 0) ∪
        btn .DU (cc_buttons &&& WII_CC_BTN_UP ≠ 0) ∪ btn .DD (cc_buttons &&& WII_CC_BTN_DOWN ≠ 0) ∪
        btn .DL (cc_buttons &&& WII_CC_BTN_LEFT ≠ 0) ∪ btn .DR (cc_buttons &&& WII_CC_BTN_RIGHT ≠ 0)
      ({ ev with
          lx := (lx <<< 2) ||| (lx >>> 4),
          ly := 255 - ((ly <<< 2) ||| (ly >>> 4)),
          rx := (rx <<< 3) ||| (rx >>> 2),
          ry := 255 - ((ry <<< 3) ||| (ry >>> 2)),
          l2 := (lt <<< 3) ||| (lt >>> 2),
          r2 := (rt <<< 3) ||| (rt >>> 2) }, buttons')
  | .classic_mini =>
      let cc_buttons := 65535 - (byteAt ext 4 ||| (byteAt ext 5 <<< 8))
      let buttons' := buttons ∪
        btn .B1 (cc_buttons &&& WII_CC_BTN_B ≠ 0) ∪ btn .B2 (cc_buttons &&& WII_CC_BTN_A ≠ 0) ∪
        btn .B3 (cc_buttons &&& WII_CC_BTN_Y ≠ 0) ∪ btn .B4 (cc_buttons &&& WII_CC_BTN_X ≠ 0) ∪
        btn .L1 (cc_buttons &&& WII_CC_BTN_LT ≠ 0) ∪ btn .R1 (cc_buttons &&& WII_CC_BTN_RT ≠ 0) ∪
        btn .L2 (cc_buttons &&& WII_CC_BTN_ZL ≠ 0) ∪ btn .R2 (cc_buttons &&& WII_CC_BTN_ZR ≠ 0) ∪
        btn .S1 (cc_buttons &&& WII_CC_BTN_MINUS ≠ 0) ∪ btn .S2 (cc_buttons &&& WII_CC_BTN_PLUS ≠ 0) ∪
        btn .A1 (cc_buttons &&& WII_CC_BTN_HOME ≠ 0) ∪
        btn .DU (cc_buttons &&& WII_CC_BTN_UP ≠ 0) ∪ btn .DD (cc_buttons &&& WII_CC_BTN_DOWN ≠ 0) ∪
        btn .DL (cc_buttons &&& WII_CC_BTN_LEFT ≠ 0) ∪ btn .DR (cc_buttons &&& WII_CC_BTN_RIGHT ≠ 0)
      (ev, buttons')
  | .guitar =>
      let stick_x := byteAt ext 0 &&& 0x3F
      let stick_y := byteAt ext 1 &&& 0x3F
      let whammy := byteAt ext 3 &&& 0x1F
      let gh_buttons := 65535 - (byteAt ext 4 ||| (byteAt ext 5 <<< 8))
      let buttons' := buttons ∪
        btn .B1 (gh_buttons &&& GH_BTN_GREEN ≠ 0) ∪ btn .B2 (gh_buttons &&& GH_BTN_RED ≠ 0) ∪
        btn .B4 (gh_buttons &&& GH_BTN_YELLOW ≠ 0) ∪ btn .B3 (gh_buttons &&& GH_BTN_BLUE ≠ 0) ∪
        btn .L1 (gh_buttons &&& GH_BTN_ORANGE ≠ 0) ∪
        btn .DU (gh_buttons &&& GH_BTN_STRUM_UP ≠ 0) ∪ btn .DD (gh_buttons &&& GH_BTN_STRUM_DOWN ≠ 0) ∪
        btn .S2 (gh_buttons &&& GH_BTN_PLUS ≠ 0) ∪ btn .S1 (gh_buttons &&& GH_BTN_MINUS ≠ 0)
      ({ ev with
          lx := (stick_x <<< 2) ||| (stick_x >>> 4),
          ly := 255 - ((stick_y <<< 2) ||| (stick_y >>> 4)),
          l2 := (whammy <<< 3) ||| (whammy >>> 2) }, buttons')
  | .ext_none => (ev, buttons)

/-- Core-button branch of `wiimote_process_report` (`wiimote_bt.c` lines
359-603), reached for report ids `0x30`-`0x37`, `0x3e`, `0x3f` with at
least 3 bytes: orientation hotkey, orientation detection, extension
decoding, rotation, and the `READY`-gated submission.  The state machine
phase is not written on this path, so the `wii->state == WII_STATE_READY`
test reads the entry phase. -/
def core_process (wii : WiimoteData) (data : List Nat) :
    WiimoteData × List InputEvent :=
  let len := data.length
  let report_id := byteAt data 0
  (let raw := core_raw_buttons data
        let buttons0 := core_button_map raw
        let plus_held := raw &&& WII_BTN_PLUS ≠ 0
        let up_held := raw &&& WII_BTN_UP ≠ 0
        let down_held := raw &&& WII_BTN_DOWN ≠ 0
        let left_held := raw &&& WII_BTN_LEFT ≠ 0
        let right_held := raw &&& WII_BTN_RIGHT ≠ 0
        let hotkey := plus_held ∧ (up_held ∨ down_held ∨ left_held ∨ right_held)
        let wii1 :=
          if hotkey then
            if ¬wii.orient_hotkey_active then
              let new_mode := if up_held then OrientMode.vertical
                              else if right_held then OrientMode.horizontal
                              else OrientMode.auto_detect
              { wii with orient_hotkey_active := true, orient_mode := new_mode }
            else wii
          else { wii with orient_hotkey_active := false }
        let buttons1 :=
          if hotkey then buttons0 \ ({.S2, .DU, .DD, .DL, .DR} : Finset JPButton)
          else buttons0
        let has_accel := report_id = 0x31 ∨ report_id = 0x35 ∨
                         report_id = 0x33 ∨ report_id = 0x37
        let new_orient :=
          match wii1.orient_mode with
          | .horizontal => Orient.horizontal
          | .vertical => Orient.vertical
          | .auto_detect =>
              if has_accel ∧ len ≥ 6
              then wiimote_detect_orientation (byteAt data 3) wii1.orientation
              else wii1.orientation
        let wii2 := { wii1 with orientation := new_orient }
        let ext : Option (List Nat) :=
          if report_id = 0x32 ∧ len ≥ 9 then some (data.drop 3)
          else if report_id = 0x35 ∧ len ≥ 22 then some (data.drop 6)
          else none
        let (ev1, buttons2) :=
          match ext with
          | some e => ext_decode wii2.ext_type wii2.extension_connected e wii2.event buttons1
          | none => (wii2.event, buttons1)
        let buttons3 :=
          if wii2.ext_type = .ext_none ∧ ¬wii2.extension_connected
          then wiimote_rotate_controls buttons2 wii2.orientation
          else buttons2
   let ev2 := { ev1 with buttons := buttons3 }
   let wii3 := { wii2 with event := ev2 }
   (wii3, if wii.phase = .ready then [ev2] else []))

/-- Status-report branch (`0x20`) of `wiimote_process_report`
(`wiimote_bt.c` lines 606-646): during `WAIT_STATUS` it records the
extension flag and picks the next init step; in `READY` it handles
extension hot-swap, re-centering the analogs and submitting immediately
when the extension is removed. -/
def status_process (wii : WiimoteData) (data : List Nat) :
    WiimoteData × List InputEvent :=
  let flags := byteAt data 3 &&& 0x0F
  let ext_now := flags &&& 0x02 ≠ 0
  if wii.phase = .wait_status then
    if ext_now then
      ({ wii with extension_connected := true, phase := .send_ext_init1 }, [])
    else
      ({ wii with extension_connected := false, phase := .send_report_mode }, [])
  else if wii.phase = .ready then
    if (ext_now : Bool) ≠ wii.extension_connected then
      if ext_now then
        ({ wii with extension_connected := true, ext_type := .ext_none,
                    phase := .send_ext_init1 }, [])
      else
        let ev := { wii.event with
          lx := 128, ly := 128, rx := 128, ry := 128, l2 := 0, r2 := 0 }
        ({ wii with extension_connected := false, ext_type := .ext_none,
                    event := ev, phase := .send_report_mode }, [ev])
    else (wii, [])
  else (wii, [])

/-- ACK-report branch (`0x22`) of `wiimote_process_report`
(`wiimote_bt.c` lines 648-668). -/
def ack_process (wii : WiimoteData) (data : List Nat) (now : Nat) :
    WiimoteData × List InputEvent :=
  let acked_report := byteAt data 3
  let error_code := byteAt data 4
  if error_code = 0 then
    if wii.phase = .wait_ext_init1_ack ∧ acked_report = 0x16 then
      ({ wii with phase := .send_ext_init2 }, [])
    else if wii.phase = .wait_ext_init2_ack ∧ acked_report = 0x16 then
      ({ wii with phase := .read_ext_type }, [])
    else if wii.phase = .wait_report_ack ∧ acked_report = 0x12 then
      ({ wii with phase := .send_led }, [])
    else if wii.phase = .wait_led_ack ∧ acked_report = 0x11 then
      ({ wii with phase := .ready, last_keepalive := now }, [])
    else (wii, [])
  else (wii, [])

/-- Read-data-response branch (`0x21`) of `wiimote_process_report`
(`wiimote_bt.c` lines 670-728): extension-type identification. -/
def read_ext_process (wii : WiimoteData) (data : List Nat) :
    WiimoteData × List InputEvent :=
  let len := data.length
  let error := byteAt data 3 &&& 0x0F
  if wii.phase = .wait_ext_type then
    let wii1 :=
      if error = 0 ∧ len ≥ 12 then
        if byteAt data 8 = 0xA4 ∧ byteAt data 9 = 0x20 then
          if byteAt data 10 = 0x00 ∧ byteAt data 11 = 0x00 then
            { wii with ext_type := .nunchuk }
          else if byteAt data 10 = 0x01 ∧ byteAt data 11 = 0x01 then
            if byteAt data 6 ≥ 0x02 then { wii with ext_type := .classic_mini }
            else { wii with ext_type := .classic }
          else if byteAt data 10 = 0x01 ∧ byteAt data 11 = 0x03 then
            { wii with ext_type := .guitar }
          else if byteAt data 10 = 0x01 ∧ byteAt data 11 = 0x20 then
            wii
          else { wii with ext_type := .ext_none }
        else wii
      else wii
    ({ wii1 with phase := .send_report_mode }, [])
  else (wii, [])

/-- Report handler `wiimote_process_report` of `wiimote_bt.c` (lines
351-729), one incoming HID report.  `now` is `platform_time_us()`.  Returns
the updated driver state and the events handed to `router_submit_input`.
The flash save queued by the orientation hotkey is an external side effect
and is not part of the state. -/
def wiimote_process_report (wii : WiimoteData) (data : List Nat) (now : Nat) :
    WiimoteData × List InputEvent :=
  let len := data.length
  if len < 1 then (wii, [])
  else
    let report_id := byteAt data 0
    if (0x30 ≤ report_id ∧ report_id ≤ 0x37) ∨ report_id = 0x3e ∨ report_id = 0x3f then
      if len ≥ 3 then core_process wii data
      else (wii, [])
    else if report_id = 0x20 ∧ len ≥ 4 then status_process wii data
    else if report_id = 0x22 ∧ len ≥ 5 then ack_process wii data now
    else if report_id = 0x21 ∧ len ≥ 7 then read_ext_process wii data
    else (wii, [])

end Wiimote

namespace Hotkeys

/-- Trigger kinds `HOTKEY_TRIGGER_*` used by `hotkeys.c`. -/
inductive Trigger where
  | on_tap
  | on_hold
  | on_release
deriving DecidableEq, Repr

/-- Registered hotkey `HotkeyDef` as consumed by `hotkeys.c`: required
button mask, trigger kind, hold duration, and the `global` flag.  The
callback is not part of the state; firings are returned explicitly. -/
structure HotkeyDef where
  buttons : Nat
  trigger : Trigger
  duration_ms : Nat
  is_global : Bool
deriving DecidableEq, Repr

/-- Match predicate `buttons_match` of `hotkeys.c` (lines 66-69):
`(current & required) == required` (active-high). -/
def buttons_match (current required : Nat) : Bool :=
  current &&& required = required

/-- Wrapped `uint32_t` subtraction `now - hold_start_ms` as computed by
`hotkeys.c` for `held_ms`. -/
def held_ms_of (now hold_start : Nat) : Nat :=
  (u32 now + 4294967296 - u32 hold_start) % 4294967296

/-- Body of the per-hotkey iteration shared by `hotkeys_check` (lines
91-138) and `hotkeys_check_global` (lines 155-195): given the shared
`hold_start_ms`, this hotkey's `holding`/`triggered` flags and whether the
combo currently matches, produce the updated triple and the fired `held_ms`
(if the callback is invoked). -/
def combo_step (hk : HotkeyDef) (hold_start : Nat) (holding triggered : Bool)
    (m : Bool) (now : Nat) : Nat × Bool × Bool × Option Nat :=
  if m then
    let hold_start' := if ¬holding then now else hold_start
    let triggered0 := if ¬holding then false else triggered
    if hk.trigger = .on_hold ∧ triggered0 = false then
      let held := held_ms_of now hold_start'
      if held ≥ hk.duration_ms then (hold_start', true, true, some held)
      else (hold_start', true, triggered0, none)
    else (hold_start', true, triggered0, none)
  else
    if holding then
      let held := held_ms_of now hold_start
      let fired :=
        if hk.trigger = .on_release then
          if held ≥ hk.duration_ms then some held else none
        else if hk.trigger = .on_tap then
          if held < hk.duration_ms then some held else none
        else none
      (hold_start, false, false, fired)
    else (hold_start, false, false, none)

/-- Loop body of `hotkeys_check` for one registered hotkey: global hotkeys
are skipped (`continue`), per-player hotkeys run `combo_step` against the
player's buttons. -/
def check_one (hk : HotkeyDef) (hold_start : Nat) (holding triggered : Bool)
    (buttons now : Nat) : Nat × Bool × Bool × Option Nat :=
  if hk.is_global then (hold_start, holding, triggered, none)
  else combo_step hk hold_start holding triggered (buttons_match buttons hk.buttons) now

/-- Loop body of `hotkeys_check_global` for one registered hotkey:
per-player hotkeys are skipped, global hotkeys run `combo_step` against the
accumulated global buttons. -/
def check_one_global (hk : HotkeyDef) (hold_start : Nat) (holding triggered : Bool)
    (gbuttons now : Nat) : Nat × Bool × Bool × Option Nat :=
  if ¬hk.is_global then (hold_start, holding, triggered, none)
  else combo_step hk hold_start holding triggered (buttons_match gbuttons hk.buttons) now

/-- Hotkey loop of `hotkeys_check` (lines 80-139): iterate over the
registered hotkeys in order, threading the SHARED `hold_start_ms` through the
iteration (the C `PlayerHoldState` keeps one `hold_start_ms` per player, not
one per hotkey); `flags` carries the per-hotkey `(holding, triggered)`
pairs.  Firings are returned as `(index, held_ms)` pairs. -/
def check_list (hks : List HotkeyDef) (flags : List (Bool × Bool))
    (hold_start : Nat) (buttons now idx : Nat) :
    Nat × List (Bool × Bool) × List (Nat × Nat) :=
  match hks, flags with
  | [], _ => (hold_start, [], [])
  | hk :: hks', flags =>
      let f := flags.headD (false, false)
      let (hs', holding', triggered', fired) :=
        check_one hk hold_start f.1 f.2 buttons now
      let (hs'', rest, fires) :=
        check_list hks' flags.tail hs' buttons now (idx + 1)
      (hs'', (holding', triggered') :: rest,
       (fired.toList.map (fun h => (idx, h))) ++ fires)

/-- Hotkey loop of `hotkeys_check_global` (lines 148-196), same threading as
`check_list` but over the global flags and the accumulated global
buttons. -/
def check_list_global (hks : List HotkeyDef) (flags : List (Bool × Bool))
    (hold_start : Nat) (gbuttons now idx : Nat) :
    Nat × List (Bool × Bool) × List (Nat × Nat) :=
  match hks, flags with
  | [], _ => (hold_start, [], [])
  | hk :: hks', flags =>
      let f := flags.headD (false, false)
      let (hs', holding', triggered', fired) :=
        check_one_global hk hold_start f.1 f.2 gbuttons now
      let (hs'', rest, fires) :=
        check_list_global hks' flags.tail hs' gbuttons now (idx + 1)
      (hs'', (holding', triggered') :: rest,
       (fired.toList.map (fun h => (idx, h))) ++ fires)

/-- Per-player hold state `PlayerHoldState` of `hotkeys.c` (lines 13-18):
one shared `hold_start_ms` and per-hotkey `(holding, triggered)` flags.
`held_buttons` is stored by the C code but never read back. -/
structure PlayerHoldState where
  held_buttons : Nat
  hold_start_ms : Nat
  flags : List (Bool × Bool)
deriving DecidableEq, Repr

/-- Service entry `hotkeys_check(buttons, player)` of `hotkeys.c` (lines
71-143) for one player: accumulates the player's buttons into the global OR
(first component of the result) and runs the per-player hotkey loop.
`gbuttons` is the current `global_buttons` accumulator. -/
def hotkeys_check (hks : List HotkeyDef) (st : PlayerHoldState)
    (gbuttons buttons now : Nat) : Nat × PlayerHoldState × List (Nat × Nat) :=
  let gbuttons' := gbuttons ||| buttons
  let (hs', flags', fires) := check_list hks st.flags st.hold_start_ms buttons now 0
  (gbuttons',
   { held_buttons := buttons, hold_start_ms := hs', flags := flags' }, fires)

/-- Global hold state of `hotkeys.c` (file-scope `global_buttons`,
`global_hold_start_ms`, `global_holding`, `global_triggered`). -/
structure GlobalHoldState where
  global_buttons : Nat
  hold_start_ms : Nat
  flags : List (Bool × Bool)
deriving DecidableEq, Repr

/-- Service entry `hotkeys_check_global()` of `hotkeys.c` (lines 145-200):
match the global hotkeys against the accumulated OR of all players' buttons,
then reset the accumulator to 0. -/
def hotkeys_check_global (hks : List HotkeyDef) (st : GlobalHoldState)
    (now : Nat) : GlobalHoldState × List (Nat × Nat) :=
  let (hs', flags', fires) :=
    check_list_global hks st.flags st.hold_start_ms st.global_buttons now 0
  ({ global_buttons := 0, hold_start_ms := hs', flags := flags' }, fires)

end Hotkeys

namespace N64Host

/-- Connection-tracking state of `n64_host.c` for one port: the file-scope
arrays `connected_polls`, `disconnect_debounce`, `rumble_pak_initialized`
(indexed by port). -/
structure PortState where
  connected_polls : Nat
  disconnect_debounce : Nat
  rumble_pak_initialized : Bool
deriving DecidableEq, Repr

/-- Neutral event built by `n64_host_task` on a confirmed disconnect
(`n64_host.c` lines 206-215): `init_input_event` then `buttons = 0` and the
four stick axes forced to 128. -/
def neutral_event : InputEvent :=
  { init_input_event with
    buttons := ∅, lx := 128, ly := 128, rx := 128, ry := 128 }

/-- Connection-tracking portion of `n64_host_task` for one port and one poll
(`n64_host.c` lines 183-250): `is_connected` is
`N64Controller_IsInitialized` after the poll.  A confirmed disconnect
(30 consecutive absent polls while previously connected) submits the neutral
event; shorter runs only advance the debounce counter.  When the poll fails
(`success == false`, which holds for an absent controller) the input
processing further down the task (lines 252-302) is skipped, so these are
the only router submissions for absent polls. -/
def connection_step (st : PortState) (is_connected : Bool) :
    PortState × List InputEvent :=
  if ¬is_connected then
    if st.connected_polls > 0 then
      let d := st.disconnect_debounce + 1
      if d ≥ 30 then
        ({ connected_polls := 0, disconnect_debounce := 0,
           rumble_pak_initialized := false }, [neutral_event])
      else ({ st with disconnect_debounce := d }, [])
    else (st, [])
  else
    let st1 := { st with
      disconnect_debounce := 0,
      connected_polls := if st.connected_polls = 0 then 1 else st.connected_polls }
    let st2 :=
      if st1.connected_polls > 0 ∧ st1.connected_polls < 255
      then { st1 with connected_polls := st1.connected_polls + 1 } else st1
    (st2, [])

/-- Iterated polling: run `connection_step` over a list of connection
observations, collecting all submitted events. -/
def run_polls (st : PortState) (conns : List Bool) : PortState × List InputEvent :=
  match conns with
  | [] => (st, [])
  | c :: rest =>
      let (st', evs) := connection_step st c
      let (st'', evs') := run_polls st' rest
      (st'', evs ++ evs')

end N64Host

namespace GCHost

/-- Connection-tracking state of `gc_host.c` for one port: the file-scope
arrays `was_connected` and `disconnect_debounce`. -/
structure PortState where
  was_connected : Bool
  disconnect_debounce : Nat
deriving DecidableEq, Repr

/-- Neutral event built by `gc_host_task` on a confirmed disconnect
(`gc_host.c` lines 153-166): `init_input_event` then `buttons = 0`, stick
axes 128 and triggers 0. -/
def neutral_event : InputEvent :=
  { init_input_event with
    buttons := ∅, lx := 128, ly := 128, rx := 128, ry := 128, l2 := 0, r2 := 0 }

/-- Connection-tracking portion of `gc_host_task` for one port and one poll
(`gc_host.c` lines 134-190): a confirmed disconnect (30 consecutive absent
polls while previously connected) submits the neutral event; shorter runs
only advance the debounce counter; when the poll fails the input processing
(lines 192-233) is skipped. -/
def connection_step (st : PortState) (is_connected : Bool) :
    PortState × List InputEvent :=
  if ¬is_connected then
    if st.was_connected then
      let d := st.disconnect_debounce + 1
      if d ≥ 30 then
        ({ was_connected := false, disconnect_debounce := 0 }, [neutral_event])
      else ({ st with disconnect_debounce := d }, [])
    else (st, [])
  else
    ({ was_connected := true, disconnect_debounce := 0 }, [])

/-- Iterated polling for the GameCube host. -/
def run_polls (st : PortState) (conns : List Bool) : PortState × List InputEvent :=
  match conns with
  | [] => (st, [])
  | c :: rest =>
      let (st', evs) := connection_step st c
      let (st'', evs') := run_polls st' rest
      (st'', evs ++ evs')

end GCHost

/-- Membership in the conditional singleton `btn`. -/
theorem mem_btn {a b : JPButton} {c : Bool} : a ∈ btn b c ↔ (c = true ∧ a = b) := by
  cases c <;> simp [btn]

/-- C6: for every axis field with logical maximum `M ≥ 2` and raw value
`v ∈ [0, M]`, `scale_analog` returns `1 + (v*127)/mid` for `v ≤ mid` and
`128 + ((v-mid)*127)/(M-mid)` otherwise with `mid = M/2`; consequently
`v = 0` yields 1, `v = mid` yields 128 and `v = M` yields 255, and after the
final clamp of `process_report_dynamic` no stick axis is submitted as 0. -/
theorem c6_generic_axis_scaling (M v : Nat) (hM : 2 ≤ M) (_hv : v ≤ M) :
    GenericHid.scale_analog v M =
      (if v ≤ M / 2 then 1 + (v * 127) / (M / 2)
       else 128 + ((v - M / 2) * 127) / (M - M / 2)) ∧
    GenericHid.scale_analog 0 M = 1 ∧
    GenericHid.scale_analog (M / 2) M = 128 ∧
    GenericHid.scale_analog M M = 255 ∧
    (∀ w m, 1 ≤ GenericHid.dynamic_stick_axis w m) := by
  refine ⟨rfl, ?_, ?_, ?_, ?_⟩
  · simp [GenericHid.scale_analog]
  · have h1 : 0 < M / 2 := by omega
    simp only [GenericHid.scale_analog]
    rw [if_pos (le_refl (M / 2)), Nat.mul_div_cancel_left _ h1]
  · have h1 : ¬ (M ≤ M / 2) := by omega
    have h2 : 0 < M - M / 2 := by omega
    simp only [GenericHid.scale_analog]
    rw [if_neg h1, Nat.mul_div_cancel_left _ h2]
  · intro w m
    have base : ∀ a : Nat, 1 ≤ if a = 0 then 1 else a := by
      intro a; split <;> omega
    simp only [GenericHid.dynamic_stick_axis]
    exact base _

/-- Witness for `c6_generic_axis_scaling` at `M = 2`, `v = 1`. -/
theorem c6_witness :
    2 ≤ 2 ∧ 1 ≤ 2 ∧
    (GenericHid.scale_analog 1 2 =
      (if 1 ≤ 2 / 2 then 1 + (1 * 127) / (2 / 2)
       else 128 + ((1 - 2 / 2) * 127) / (2 - 2 / 2)) ∧
    GenericHid.scale_analog 0 2 = 1 ∧
    GenericHid.scale_analog (2 / 2) 2 = 128 ∧
    GenericHid.scale_analog 2 2 = 255 ∧
    (∀ w m, 1 ≤ GenericHid.dynamic_stick_axis w m)) :=
  ⟨by decide, by decide, c6_generic_axis_scaling 2 1 (by decide) (by decide)⟩

/-- C10: the divisors of `scale_analog` are nonzero for every input whenever
`max_value ≥ 2`, while the caller's guard in `process_report_dynamic` only
excludes `max_value = 0`, so a descriptor reporting logical maximum 1 passes
the guard and raw value 0 reaches a zero divisor. -/
theorem c10_division_guard (M v : Nat) (hM : 2 ≤ M) :
    GenericHid.scale_analog_divisor v M ≠ 0 ∧
    GenericHid.axis_guard 1 = true ∧
    GenericHid.scale_analog_divisor 0 1 = 0 := by
  refine ⟨?_, by decide, by decide⟩
  simp only [GenericHid.scale_analog_divisor]
  split <;> omega

/-- Witness for `c10_division_guard` at `M = 2`, `v = 0`. -/
theorem c10_witness :
    2 ≤ 2 ∧
    (GenericHid.scale_analog_divisor 0 2 ≠ 0 ∧
     GenericHid.axis_guard 1 = true ∧
     GenericHid.scale_analog_divisor 0 1 = 0) :=
  ⟨by decide, c10_division_guard 2 0 (by decide)⟩

/-- Input report of the spec's "Bare BLE 8BitDo press A" scenario. -/
def bitdo_report_a : List Nat :=
  [0x03, 0x08, 0x80, 0x80, 0x80, 0x80, 0x00, 0x00, 0x01, 0x00, 0x50]

/-- Variant of the scenario report with distinct trigger bytes
(byte 6 = 0x11, byte 7 = 0x22), to exhibit the trigger channel swap. -/
def bitdo_report_swap : List Nat :=
  [0x03, 0x08, 0x80, 0x80, 0x80, 0x80, 0x11, 0x22, 0x01, 0x00, 0x50]

/-- C2, counterexample: on the scenario report the hat nibble is 8
(center), so the submitted button set is `{B1}`, not `{DU, B1}`; and the
driver never reads the battery byte, so `battery_level` stays at its
initialized value instead of becoming 80. -/
theorem c2_counterexample :
    (Bitdo.bitdo_process_report init_input_event bitdo_report_a).map
        InputEvent.buttons = some {JPButton.B1} ∧
    (Bitdo.bitdo_process_report init_input_event bitdo_report_a).map
        InputEvent.buttons ≠ some {JPButton.DU, JPButton.B1} ∧
    (Bitdo.bitdo_process_report init_input_event bitdo_report_a).map
        InputEvent.battery_level = some 0 ∧
    (Bitdo.bitdo_process_report init_input_event bitdo_report_a).map
        InputEvent.battery_level ≠ some 80 := by
  refine ⟨by decide, by decide, by decide, by decide⟩

/-- C2, amended: the scenario report yields buttons exactly `{B1}` (hat
value 8 = released), all four stick axes 128, triggers 0 with `analog[L2]`
taken from report byte 7 and `analog[R2]` from byte 6 (exhibited on the
variant report), and `battery_level` left unchanged by the driver. -/
theorem c2_amended_theorem :
    (Bitdo.bitdo_process_report init_input_event bitdo_report_a).map
        InputEvent.buttons = some {JPButton.B1} ∧
    (Bitdo.bitdo_process_report init_input_event bitdo_report_a).map
        InputEvent.lx = some 128 ∧
    (Bitdo.bitdo_process_report init_input_event bitdo_report_a).map
        InputEvent.ly = some 128 ∧
    (Bitdo.bitdo_process_report init_input_event bitdo_report_a).map
        InputEvent.rx = some 128 ∧
    (Bitdo.bitdo_process_report init_input_event bitdo_report_a).map
        InputEvent.ry = some 128 ∧
    (Bitdo.bitdo_process_report init_input_event bitdo_report_a).map
        InputEvent.l2 = some 0 ∧
    (Bitdo.bitdo_process_report init_input_event bitdo_report_a).map
        InputEvent.r2 = some 0 ∧
    (Bitdo.bitdo_process_report init_input_event bitdo_report_a).map
        InputEvent.battery_level = some init_input_event.battery_level ∧
    (Bitdo.bitdo_process_report init_input_event bitdo_report_swap).map
        InputEvent.l2 = some 0x22 ∧
    (Bitdo.bitdo_process_report init_input_event bitdo_report_swap).map
        InputEvent.r2 = some 0x11 := by
  refine ⟨by decide, by decide, by decide, by decide, by decide,
          by decide, by decide, by decide, by decide, by decide⟩

/-- Wii U Pro `0x3D` report with left stick fully up (raw `LY = 3248`,
little-endian `B0 0C` at extension offset 4), all buttons released
(`FF FF FF`). -/
def wiiu_full_up_report : List Nat :=
  [0x3D, 0x00, 0x08, 0x00, 0x08, 0xB0, 0x0C, 0x00, 0x08, 0xFF, 0xFF, 0xFF,
   0, 0, 0, 0, 0, 0, 0, 0, 0, 0]

/-- Wii U Pro driver state in `READY` with a previous data report seen. -/
def wiiu_ready_state : WiiU.WiiUData :=
  { event := init_input_event, player_led := 0x10, rumble_on := false,
    phase := .ready, init_time := 0, init_retries := 0,
    last_keepalive := 0, last_report := 1 }

/-- Switch 2 BLE driver state after calibration with centered sticks
(Pro Controller 2, centers 2048). -/
def sw2_calibrated_state : Switch2.Sw2Data :=
  { event := init_input_event, pid := 0x2069,
    cal_lx_center := 2048, cal_ly_center := 2048,
    cal_rx_center := 2048, cal_ry_center := 2048, cal_samples := 4 }

/-- Switch 2 BLE 63-byte report with the left stick at raw `LX = 0`
(full left) and the Y axes at center. -/
def sw2_full_left_report : List Nat :=
  ((List.replicate 63 0).set 12 0x80).set 15 0x80

/-- C1: both named drivers can submit a stick axis equal to 0, violating the
claimed `[1, 255]` invariant.  The Wii U Pro driver's `scale_stick` clamps
its result to at least 1, but the `255 - scale_stick` Y inversion maps a
full-up deflection (`scale_stick = 255`) to 0; the Switch 2 BLE
`scale_analog_calibrated` clamps to `[-128, 127]` and so yields 0 directly
at full negative deflection. -/
theorem c1_stick_axis_zero :
    ((WiiU.wii_u_process_report wiiu_ready_state wiiu_full_up_report 5).2.map
        InputEvent.ly) = [0] ∧
    WiiU.scale_stick 3248 = 255 ∧
    ((Switch2.switch2_ble_process_report sw2_calibrated_state
        sw2_full_left_report).2.map InputEvent.lx) = some 0 ∧
    ¬ (1 ≤ (0 : Nat)) := by
  refine ⟨by decide, by decide, by decide, by decide⟩

/-- One absent poll with the debounce still short of the threshold: the
counter advances, nothing is submitted. -/
theorem n64_step_absent_short (c d : Nat) (pak : Bool) (hc : 0 < c)
    (hd : d + 1 < 30) :
    N64Host.connection_step ⟨c, d, pak⟩ false = (⟨c, d + 1, pak⟩, []) := by
  have h30 : ¬ (30 ≤ d + 1) := by omega
  simp [N64Host.connection_step, hc, h30]

/-- The 30th consecutive absent poll fires the neutral event and resets the
port state. -/
theorem n64_step_absent_fire (c : Nat) (pak : Bool) (hc : 0 < c) :
    N64Host.connection_step ⟨c, 29, pak⟩ false =
      (⟨0, 0, false⟩, [N64Host.neutral_event]) := by
  simp [N64Host.connection_step, hc]

/-- A short run of absent polls only advances the debounce counter. -/
theorem n64_absent_run (k : Nat) : ∀ d c, ∀ pak : Bool, 0 < c → d + k < 30 →
    N64Host.run_polls ⟨c, d, pak⟩ (List.replicate k false) =
      (⟨c, d + k, pak⟩, []) := by
  induction k with
  | zero => intro d c pak _ _; simp [N64Host.run_polls]
  | succ n ih =>
      intro d c pak hc hk
      rw [List.replicate_succ]
      simp only [N64Host.run_polls]
      rw [n64_step_absent_short c d pak hc (by omega),
          ih (d + 1) c pak hc (by omega)]
      have : d + 1 + n = d + (n + 1) := by omega
      rw [this]
      simp

/-- A maximal run of absent polls ending at the threshold fires exactly the
neutral event. -/
theorem n64_absent_run_fire (k : Nat) : ∀ c, ∀ pak : Bool, 0 < c → 1 ≤ k →
    k ≤ 30 →
    N64Host.run_polls ⟨c, 30 - k, pak⟩ (List.replicate k false) =
      (⟨0, 0, false⟩, [N64Host.neutral_event]) := by
  induction k with
  | zero => intro c pak _ h1 _; omega
  | succ n ih =>
      intro c pak hc _ hk
      rw [List.replicate_succ]
      simp only [N64Host.run_polls]
      by_cases hn : n = 0
      · subst hn
        have h29 : 30 - 1 = 29 := by omega
        rw [h29, n64_step_absent_fire c pak hc]
        simp [N64Host.run_polls]
      · have hstep : 30 - (n + 1) + 1 = 30 - n := by omega
        have hlt : 30 - (n + 1) + 1 < 30 := by omega
        rw [n64_step_absent_short c (30 - (n + 1)) pak hc (by omega)]
        rw [hstep, ih c pak hc (by omega) (by omega)]
        simp

/-- GameCube analogue of `n64_step_absent_short`. -/
theorem gc_step_absent_short (d : Nat) (hd : d + 1 < 30) :
    GCHost.connection_step ⟨true, d⟩ false = (⟨true, d + 1⟩, []) := by
  have h30 : ¬ (30 ≤ d + 1) := by omega
  simp [GCHost.connection_step, h30]

/-- GameCube analogue of `n64_step_absent_fire`. -/
theorem gc_step_absent_fire :
    GCHost.connection_step ⟨true, 29⟩ false =
      (⟨false, 0⟩, [GCHost.neutral_event]) := by
  simp [GCHost.connection_step]

/-- GameCube analogue of `n64_absent_run`. -/
theorem gc_absent_run (k : Nat) : ∀ d, d + k < 30 →
    GCHost.run_polls ⟨true, d⟩ (List.replicate k false) = (⟨true, d + k⟩, []) := by
  induction k with
  | zero => intro d _; simp [GCHost.run_polls]
  | succ n ih =>
      intro d hk
      rw [List.replicate_succ]
      simp only [GCHost.run_polls]
      rw [gc_step_absent_short d (by omega), ih (d + 1) (by omega)]
      have : d + 1 + n = d + (n + 1) := by omega
      rw [this]
      simp

/-- GameCube analogue of `n64_absent_run_fire`. -/
theorem gc_absent_run_fire (k : Nat) : ∀ _ : 1 ≤ k, k ≤ 30 →
    GCHost.run_polls ⟨true, 30 - k⟩ (List.replicate k false) =
      (⟨false, 0⟩, [GCHost.neutral_event]) := by
  induction k with
  | zero => intro h1 _; omega
  | succ n ih =>
      intro _ hk
      rw [List.replicate_succ]
      simp only [GCHost.run_polls]
      by_cases hn : n = 0
      · subst hn
        have h29 : 30 - 1 = 29 := by omega
        rw [h29, gc_step_absent_fire]
        simp [GCHost.run_polls]
      · have hstep : 30 - (n + 1) + 1 = 30 - n := by omega
        rw [gc_step_absent_short (30 - (n + 1)) (by omega)]
        rw [hstep, ih (by omega) (by omega)]
        simp

/-- C8: the N64 and GameCube hosts declare a connected controller
disconnected only after 30 consecutive absent polls; on the 30th consecutive
failure the N64 host submits the neutral event (buttons empty, all stick
axes 128), any shorter run submits nothing and leaves the connection
declared, and a successful poll resets the debounce counter. -/
theorem c8_disconnect_debounce (c k d : Nat) (pak : Bool) (hc : 0 < c)
    (hk : k < 30) :
    (N64Host.run_polls ⟨c, 0, pak⟩ (List.replicate k false)).2 = [] ∧
    (N64Host.run_polls ⟨c, 0, pak⟩ (List.replicate k false)).1.connected_polls = c ∧
    N64Host.run_polls ⟨c, 0, pak⟩ (List.replicate 30 false) =
      (⟨0, 0, false⟩, [N64Host.neutral_event]) ∧
    N64Host.neutral_event.buttons = ∅ ∧
    N64Host.neutral_event.lx = 128 ∧ N64Host.neutral_event.ly = 128 ∧
    N64Host.neutral_event.rx = 128 ∧ N64Host.neutral_event.ry = 128 ∧
    (N64Host.connection_step ⟨c, d, pak⟩ true).1.disconnect_debounce = 0 ∧
    (N64Host.connection_step ⟨c, d, pak⟩ true).2 = [] ∧
    (GCHost.run_polls ⟨true, 0⟩ (List.replicate k false)).2 = [] ∧
    (GCHost.run_polls ⟨true, 0⟩ (List.replicate k false)).1.was_connected = true ∧
    GCHost.run_polls ⟨true, 0⟩ (List.replicate 30 false) =
      (⟨false, 0⟩, [GCHost.neutral_event]) ∧
    (GCHost.connection_step ⟨true, d⟩ true).1.disconnect_debounce = 0 ∧
    (GCHost.connection_step ⟨true, d⟩ true).2 = [] := by
  have hn64 := n64_absent_run k 0 c pak hc (by omega)
  have hgc := gc_absent_run k 0 (by omega)
  have hn30 := n64_absent_run_fire 30 c pak hc (by omega) (by omega)
  have hg30 := gc_absent_run_fire 30 (by omega) (by omega)
  simp only [Nat.sub_self] at hn30 hg30
  refine ⟨by rw [hn64], by rw [hn64], hn30, by decide, by decide, by decide,
          by decide, by decide, ?_, ?_, by rw [hgc], by rw [hgc], hg30, ?_, ?_⟩
  · have hc0 : c ≠ 0 := by omega
    simp [N64Host.connection_step, hc0]
    split <;> rfl
  · have hc0 : c ≠ 0 := by omega
    simp [N64Host.connection_step, hc0]
  · simp [GCHost.connection_step]
  · simp [GCHost.connection_step]

/-- Witness for `c8_disconnect_debounce` at `c = 1`, `k = 29`, `d = 5`. -/
theorem c8_witness :
    0 < 1 ∧ 29 < 30 ∧
    ((N64Host.run_polls ⟨1, 0, false⟩ (List.replicate 29 false)).2 = [] ∧
    (N64Host.run_polls ⟨1, 0, false⟩ (List.replicate 29 false)).1.connected_polls = 1 ∧
    N64Host.run_polls ⟨1, 0, false⟩ (List.replicate 30 false) =
      (⟨0, 0, false⟩, [N64Host.neutral_event]) ∧
    N64Host.neutral_event.buttons = ∅ ∧
    N64Host.neutral_event.lx = 128 ∧ N64Host.neutral_event.ly = 128 ∧
    N64Host.neutral_event.rx = 128 ∧ N64Host.neutral_event.ry = 128 ∧
    (N64Host.connection_step ⟨1, 5, false⟩ true).1.disconnect_debounce = 0 ∧
    (N64Host.connection_step ⟨1, 5, false⟩ true).2 = [] ∧
    (GCHost.run_polls ⟨true, 0⟩ (List.replicate 29 false)).2 = [] ∧
    (GCHost.run_polls ⟨true, 0⟩ (List.replicate 29 false)).1.was_connected = true ∧
    GCHost.run_polls ⟨true, 0⟩ (List.replicate 30 false) =
      (⟨false, 0⟩, [GCHost.neutral_event]) ∧
    (GCHost.connection_step ⟨true, 5⟩ true).1.disconnect_debounce = 0 ∧
    (GCHost.connection_step ⟨true, 5⟩ true).2 = []) :=
  ⟨by decide, by decide, c8_disconnect_debounce 1 29 5 false (by decide) (by decide)⟩

/-- Switch 2 BLE driver state as set up by `switch2_ble_init` (calibration
fields zeroed, no samples collected). -/
def sw2_initial_state (pid : Nat) : Switch2.Sw2Data :=
  { event := init_input_event, pid := pid,
    cal_lx_center := 0, cal_ly_center := 0,
    cal_rx_center := 0, cal_ry_center := 0, cal_samples := 0 }

/-- Well-formed 63-byte Switch 2 BLE report with the six stick bytes
(offsets 10-15) given and every other byte zero. -/
def stickReport (b10 b11 b12 b13 b14 b15 : Nat) : List Nat :=
  List.replicate 10 0 ++ [b10, b11, b12, b13, b14, b15] ++ List.replicate 47 0

/-- Interpretation of the claim's "averages the raw 12-bit stick values of
the first 4 valid input reports": their arithmetic mean. -/
def spec_mean_of_first_four (a b c d : Nat) : Nat := (a + b + c + d) / 4

/-- C3, counterexample: feeding raw LX samples 8, 0, 0, 0 the driver's
calibrated center is 1 (iterated pairwise halving), not their average 2;
no event is forwarded during those four reports. -/
theorem c3_counterexample :
    (Switch2.runReports (sw2_initial_state 0x2069)
        [stickReport 8 0 0 0 0 0, stickReport 0 0 0 0 0 0,
         stickReport 0 0 0 0 0 0, stickReport 0 0 0 0 0 0]).1.cal_lx_center = 1 ∧
    spec_mean_of_first_four 8 0 0 0 = 2 ∧ (1 : Nat) ≠ 2 ∧
    (Switch2.runReports (sw2_initial_state 0x2069)
        [stickReport 8 0 0 0 0 0, stickReport 0 0 0 0 0 0,
         stickReport 0 0 0 0 0 0, stickReport 0 0 0 0 0 0]).2 = [] := by
  refine ⟨by decide, by decide, by decide, by decide⟩

/-- C3, amended: the driver collects the raw 12-bit stick values of the
first 4 valid input reports and combines them by iterated pairwise
averaging (`center ← (center + sample) / 2`) into the calibrated stick
centers; during those first 4 reports it never calls `router_submit_input`,
and from the 5th valid report onward a canonical event is forwarded, scaled
around the calibrated centers. -/
theorem c3_amended_theorem (pid : Nat) (r1 r2 r3 r4 r5 : List Nat)
    (h1 : r1.length = 63) (h2 : r2.length = 63) (h3 : r3.length = 63)
    (h4 : r4.length = 63) (h5 : r5.length = 63) :
    (Switch2.runReports (sw2_initial_state pid) [r1, r2, r3, r4]).2 = [] ∧
    (Switch2.runReports (sw2_initial_state pid) [r1, r2, r3, r4]).1.cal_samples = 4 ∧
    (Switch2.runReports (sw2_initial_state pid) [r1, r2, r3, r4]).1.cal_lx_center =
      (((Switch2.raw_lx r1 + Switch2.raw_lx r2) / 2 + Switch2.raw_lx r3) / 2 +
        Switch2.raw_lx r4) / 2 ∧
    (Switch2.runReports (sw2_initial_state pid) [r1, r2, r3, r4]).1.cal_ly_center =
      (((Switch2.raw_ly r1 + Switch2.raw_ly r2) / 2 + Switch2.raw_ly r3) / 2 +
        Switch2.raw_ly r4) / 2 ∧
    (∃ ev, (Switch2.runReports (sw2_initial_state pid) [r1, r2, r3, r4, r5]).2 = [ev] ∧
      ev.lx = Switch2.scale_analog_calibrated (Switch2.raw_lx r5)
        ((((Switch2.raw_lx r1 + Switch2.raw_lx r2) / 2 + Switch2.raw_lx r3) / 2 +
          Switch2.raw_lx r4) / 2)
        (if pid = Switch2.SW2_GC_PID then Switch2.SW2_GC_AXIS_RANGE
         else Switch2.SW2_PRO_AXIS_RANGE) ∧
      ev.ly = 255 - Switch2.scale_analog_calibrated (Switch2.raw_ly r5)
        ((((Switch2.raw_ly r1 + Switch2.raw_ly r2) / 2 + Switch2.raw_ly r3) / 2 +
          Switch2.raw_ly r4) / 2)
        (if pid = Switch2.SW2_GC_PID then Switch2.SW2_GC_AXIS_RANGE
         else Switch2.SW2_PRO_AXIS_RANGE)) := by
  refine ⟨?_, ?_, ?_, ?_, ?_⟩ <;>
    simp [Switch2.runReports, Switch2.switch2_ble_process_report,
          sw2_initial_state, h1, h2, h3, h4, h5, Switch2.CAL_SAMPLES_NEEDED]

/-- Witness for `c3_amended_theorem` on five all-zero 63-byte reports. -/
theorem c3_witness :
    (stickReport 0 0 0 0 0 0).length = 63 ∧
    ((Switch2.runReports (sw2_initial_state 0x2069)
        [stickReport 0 0 0 0 0 0, stickReport 0 0 0 0 0 0,
         stickReport 0 0 0 0 0 0, stickReport 0 0 0 0 0 0]).2 = [] ∧
    (Switch2.runReports (sw2_initial_state 0x2069)
        [stickReport 0 0 0 0 0 0, stickReport 0 0 0 0 0 0,
         stickReport 0 0 0 0 0 0, stickReport 0 0 0 0 0 0]).1.cal_samples = 4 ∧
    (Switch2.runReports (sw2_initial_state 0x2069)
        [stickReport 0 0 0 0 0 0, stickReport 0 0 0 0 0 0,
         stickReport 0 0 0 0 0 0, stickReport 0 0 0 0 0 0]).1.cal_lx_center =
      (((Switch2.raw_lx (stickReport 0 0 0 0 0 0) +
         Switch2.raw_lx (stickReport 0 0 0 0 0 0)) / 2 +
        Switch2.raw_lx (stickReport 0 0 0 0 0 0)) / 2 +
       Switch2.raw_lx (stickReport 0 0 0 0 0 0)) / 2 ∧
    (Switch2.runReports (sw2_initial_state 0x2069)
        [stickReport 0 0 0 0 0 0, stickReport 0 0 0 0 0 0,
         stickReport 0 0 0 0 0 0, stickReport 0 0 0 0 0 0]).1.cal_ly_center =
      (((Switch2.raw_ly (stickReport 0 0 0 0 0 0) +
         Switch2.raw_ly (stickReport 0 0 0 0 0 0)) / 2 +
        Switch2.raw_ly (stickReport 0 0 0 0 0 0)) / 2 +
       Switch2.raw_ly (stickReport 0 0 0 0 0 0)) / 2 ∧
    (∃ ev, (Switch2.runReports (sw2_initial_state 0x2069)
        [stickReport 0 0 0 0 0 0, stickReport 0 0 0 0 0 0,
         stickReport 0 0 0 0 0 0, stickReport 0 0 0 0 0 0,
         stickReport 0 0 0 0 0 0]).2 = [ev] ∧
      ev.lx = Switch2.scale_analog_calibrated (Switch2.raw_lx (stickReport 0 0 0 0 0 0))
        ((((Switch2.raw_lx (stickReport 0 0 0 0 0 0) +
            Switch2.raw_lx (stickReport 0 0 0 0 0 0)) / 2 +
           Switch2.raw_lx (stickReport 0 0 0 0 0 0)) / 2 +
          Switch2.raw_lx (stickReport 0 0 0 0 0 0)) / 2)
        (if (0x2069 : Nat) = Switch2.SW2_GC_PID then Switch2.SW2_GC_AXIS_RANGE
         else Switch2.SW2_PRO_AXIS_RANGE) ∧
      ev.ly = 255 - Switch2.scale_analog_calibrated
        (Switch2.raw_ly (stickReport 0 0 0 0 0 0))
        ((((Switch2.raw_ly (stickReport 0 0 0 0 0 0) +
            Switch2.raw_ly (stickReport 0 0 0 0 0 0)) / 2 +
           Switch2.raw_ly (stickReport 0 0 0 0 0 0)) / 2 +
          Switch2.raw_ly (stickReport 0 0 0 0 0 0)) / 2)
        (if (0x2069 : Nat) = Switch2.SW2_GC_PID then Switch2.SW2_GC_AXIS_RANGE
         else Switch2.SW2_PRO_AXIS_RANGE))) :=
  ⟨by decide,
   c3_amended_theorem 0x2069 (stickReport 0 0 0 0 0 0) (stickReport 0 0 0 0 0 0)
     (stickReport 0 0 0 0 0 0) (stickReport 0 0 0 0 0 0) (stickReport 0 0 0 0 0 0)
     (by decide) (by decide) (by decide) (by decide) (by decide)⟩

/-- Signed conditional absolute value, rewritten through `Int.natAbs`. -/
theorem abs_ite_natAbs (d : Int) : (if d < 0 then -d else d) = (d.natAbs : Int) := by
  split_ifs <;> omega

/-- Source button for each reported button in horizontal mode, following the
claim's words: D-pad rotated 90 degrees counter-clockwise (U→L, L→D, D→R,
R→U), face buttons swapped B1↔B3 and B2↔B4, everything else unchanged. -/
def spec_horizontal_source : JPButton → JPButton
  | .DL => .DU
  | .DD => .DL
  | .DR => .DD
  | .DU => .DR
  | .B3 => .B1
  | .B4 => .B2
  | .B1 => .B3
  | .B2 => .B4
  | b => b

/-- Wiimote driver state: `READY`, no extension, auto orientation mode,
currently detected horizontal. -/
def wiimote_ready_auto_horizontal : Wiimote.WiimoteData :=
  { event := init_input_event, phase := .ready, init_time := 0,
    init_retries := 0, last_keepalive := 0, ext_type := .ext_none,
    extension_connected := false, player_led := 0x10, rumble_on := false,
    orientation := .horizontal, orient_hotkey_active := false,
    orient_mode := .auto_detect }

/-- Report `0x31` (buttons + accelerometer) with only the physical A button
pressed (core bit 0x0800) and accelerometer X = 101. -/
def wiimote_a_press_report : List Nat := [0x31, 0x00, 0x08, 101, 0, 0]

/-- C5: in auto mode the hysteretic detector switches to horizontal exactly
when `|accel_x - 128| ≥ 20` (from vertical) and back to vertical exactly
when `|accel_x - 128| < 12` (from horizontal), otherwise keeping its state;
in horizontal orientation each reported button originates from
`spec_horizontal_source` (D-pad rotated 90° CCW, faces swapped B1↔B3,
B2↔B4), vertical passes buttons through; and a press of the physical A
button (raw B2) on an extensionless Wiimote held horizontally is submitted
as B4. -/
theorem c5_orientation :
    (∀ ax : Nat, Wiimote.wiimote_detect_orientation ax .vertical =
      (if 20 ≤ ((ax : Int) - 128).natAbs then .horizontal else .vertical)) ∧
    (∀ ax : Nat, Wiimote.wiimote_detect_orientation ax .horizontal =
      (if ((ax : Int) - 128).natAbs < 12 then .vertical else .horizontal)) ∧
    (∀ (bs : Finset JPButton) (b : JPButton),
      b ∈ Wiimote.wiimote_rotate_controls bs .horizontal ↔
        spec_horizontal_source b ∈ bs) ∧
    (∀ bs : Finset JPButton, Wiimote.wiimote_rotate_controls bs .vertical = bs) ∧
    (Wiimote.wiimote_process_report wiimote_ready_auto_horizontal
        wiimote_a_press_report 0).2.map InputEvent.buttons = [{JPButton.B4}] ∧
    (Wiimote.wiimote_process_report wiimote_ready_auto_horizontal
        wiimote_a_press_report 0).1.orientation = .horizontal := by
  refine ⟨?_, ?_, ?_, ?_, by decide, by decide⟩
  · intro ax
    simp only [Wiimote.wiimote_detect_orientation, Wiimote.WII_ACCEL_CENTER,
               Wiimote.WII_ACCEL_THRESH_ON, Wiimote.WII_ACCEL_THRESH_OFF,
               abs_ite_natAbs]
    split_ifs <;> first | rfl | (exfalso; simp only [Nat.cast_ofNat] at *; try omega)
  · intro ax
    simp only [Wiimote.wiimote_detect_orientation, Wiimote.WII_ACCEL_CENTER,
               Wiimote.WII_ACCEL_THRESH_ON, Wiimote.WII_ACCEL_THRESH_OFF,
               abs_ite_natAbs]
    split_ifs <;> first | rfl | (exfalso; simp only [Nat.cast_ofNat] at *; try omega)
  · intro bs b
    cases b <;>
      simp [Wiimote.wiimote_rotate_controls, spec_horizontal_source, mem_btn,
            Finset.mem_union, Finset.mem_sdiff, Finset.mem_inter,
            Finset.mem_insert, Finset.mem_singleton]
  · intro bs
    simp [Wiimote.wiimote_rotate_controls]

/-- Outside `READY` the core-button branch updates the cached event but
submits nothing. -/
theorem core_process_submits_nil (wii : Wiimote.WiimoteData) (data : List Nat)
    (hp : wii.phase ≠ .ready) : (Wiimote.core_process wii data).2 = [] := by
  simp [Wiimote.core_process, hp]

/-- C9: the Wiimote driver forwards events to the router only while its
connect state machine is in `READY`: if processing any report produces a
submission — a core-button report or the hot-swap extension-removal path —
the machine was already in the `READY` state, so core-button reports
received earlier only update the cached event. -/
theorem c9_submit_only_ready (wii : Wiimote.WiimoteData) (data : List Nat)
    (now : Nat) (h : (Wiimote.wiimote_process_report wii data now).2 ≠ []) :
    wii.phase = .ready := by
  by_cases hp : wii.phase = .ready
  · exact hp
  · exfalso
    apply h
    have hstatus : (Wiimote.status_process wii data).2 = [] := by
      simp only [Wiimote.status_process]
      split_ifs <;> rfl
    have hack : (Wiimote.ack_process wii data now).2 = [] := by
      simp only [Wiimote.ack_process]
      split_ifs <;> rfl
    have hread : (Wiimote.read_ext_process wii data).2 = [] := by
      simp only [Wiimote.read_ext_process]
      split_ifs <;> rfl
    have hcore := core_process_submits_nil wii data hp
    simp only [Wiimote.wiimote_process_report]
    split_ifs <;> first | rfl | exact hcore | exact hstatus | exact hack | exact hread

/-- Witness for `c9_submit_only_ready`: a core-button report processed in
`READY` does submit. -/
theorem c9_witness :
    (Wiimote.wiimote_process_report wiimote_ready_auto_horizontal
        wiimote_a_press_report 0).2 ≠ [] ∧
    wiimote_ready_auto_horizontal.phase = Wiimote.Phase.ready :=
  ⟨by decide,
   c9_submit_only_ready wiimote_ready_auto_horizontal wiimote_a_press_report 0
     (by decide)⟩

namespace WiiU

/-- Driver state with the given phase and timers, the remaining fields as
`wii_u_init` leaves them; used to state the timeout and keepalive behavior
of `wii_u_task`. -/
def mk_state (p : Phase) (it ir lk lr : Nat) : WiiUData :=
  { event := init_input_event, player_led := 0, rumble_on := false,
    phase := p, init_time := it, init_retries := ir,
    last_keepalive := lk, last_report := lr }

/-- One interleaved driver operation: a main-loop tick (with the given
clock and `btstack_wiimote_can_send` answer, no player assigned yet) or an
incoming report. -/
inductive DriverOp where
  | tick (now : Nat) (can_send : Bool)
  | report (data : List Nat) (now : Nat)
deriving DecidableEq, Repr

/-- Run a sequence of driver operations from a state, collecting every
transmitted command and every submitted event in order. -/
def run_ops (st : WiiUData) (ops : List DriverOp) :
    WiiUData × List Cmd × List InputEvent :=
  match ops with
  | [] => (st, [], [])
  | .tick now cs :: rest =>
      let (st', cmds) := wii_u_task st now cs none
      let (st'', cmds', evs) := run_ops st' rest
      (st'', cmds ++ cmds', evs)
  | .report d now :: rest =>
      let (st', evs) := wii_u_process_report st d now
      let (st'', cmds, evs') := run_ops st' rest
      (st'', cmds, evs ++ evs')

/-- State set up by `wii_u_init` at time `t0`: `WAIT_INIT` with the 100 ms
initial delay armed. -/
def init_state (t0 : Nat) : WiiUData :=
  mk_state .wait_init (u32 (t0 + WII_U_INIT_DELAY_MS * 1000)) 0 0 0

/-- Happy-path operation sequence: idle tick during the initial delay,
status request, status report with the extension flag set, the two
extension-init writes (each ACKed), extension-type read (answered with
`00 00 A4 20 01 20`), report mode `0x3D`, player-1 LED, then the first
`0x3D` input report. -/
def happy_ops : List DriverOp :=
  [ .tick 50000 true,
    .tick 100000 true,
    .tick 100000 true,
    .report [0x20, 0x00, 0x00, 0x02, 0x00, 0x00, 0x00] 150000,
    .tick 150000 true,
    .report [0x22, 0x00, 0x00, 0x16, 0x00] 200000,
    .tick 200000 true,
    .report [0x22, 0x00, 0x00, 0x16, 0x00] 250000,
    .tick 250000 true,
    .report [0x21, 0x00, 0x00, 0x50, 0x00, 0x00,
             0x00, 0x00, 0xA4, 0x20, 0x01, 0x20] 300000,
    .tick 300000 true,
    .report [0x22, 0x00, 0x00, 0x12, 0x00] 350000,
    .tick 350000 true,
    .report wiiu_full_up_report 400000 ]

end WiiU

/-- C4: the Wii U Pro happy path emits, in order, the status request (after
the 100 ms initial delay), the write of `0x55` to `0xA400F0`, the write of
`0x00` to `0xA400FB` (each sent once the previous step was acknowledged),
the 6-byte read from `0xA400FA`, report mode `0x3D`, and the player-1 LED
(bit 4 of report `0x11`); the first `0x3D` input report then moves the
machine to `READY` and submits one canonical event.  Every send step arms a
1-second timeout; a timed-out waiting step retries while the retry counter
stays below `WII_U_INIT_MAX_RETRIES = 5` and otherwise moves on with the
counter cleared; and in `READY` a status-request keepalive is sent once
30 s have elapsed since the last one. -/
theorem c4_wii_u_connect_flow :
    ((WiiU.run_ops (WiiU.init_state 0) WiiU.happy_ops).2.1 =
      [WiiU.Cmd.status_req,
       WiiU.Cmd.write_data 0xA400F0 0x55,
       WiiU.Cmd.write_data 0xA400FB 0x00,
       WiiU.Cmd.read_data 0xA400FA 6,
       WiiU.Cmd.report_mode 0x04 0x3d,
       WiiU.Cmd.leds 0x10] ∧
     (WiiU.run_ops (WiiU.init_state 0) WiiU.happy_ops).1.phase = WiiU.Phase.ready ∧
     (WiiU.run_ops (WiiU.init_state 0) WiiU.happy_ops).2.2.length = 1) ∧
    (∀ it ir lk lr now, WiiU.wii_u_task (WiiU.mk_state .send_status_req it ir lk lr)
        now true none =
      (WiiU.mk_state .wait_status (u32 (now + 1000000)) ir lk lr, [.status_req])) ∧
    (∀ it ir lk lr now, WiiU.wii_u_task (WiiU.mk_state .send_ext_init1 it ir lk lr)
        now true none =
      (WiiU.mk_state .wait_ext_init1_ack (u32 (now + 1000000)) ir lk lr,
       [.write_data 0xA400F0 0x55])) ∧
    (∀ it ir lk lr now, WiiU.wii_u_task (WiiU.mk_state .wait_status it ir lk lr)
        now true none =
      (if time_reached now it then
        (if ir + 1 < WiiU.WII_U_INIT_MAX_RETRIES then
          (WiiU.mk_state .send_status_req it (ir + 1) lk lr, [])
         else (WiiU.mk_state .send_ext_init1 it 0 lk lr, []))
       else (WiiU.mk_state .wait_status it ir lk lr, []))) ∧
    (∀ it ir lk lr now, WiiU.wii_u_task (WiiU.mk_state .wait_ext_init1_ack it ir lk lr)
        now true none =
      (if time_reached now it then
        (if ir + 1 < WiiU.WII_U_INIT_MAX_RETRIES then
          (WiiU.mk_state .send_ext_init1 it (ir + 1) lk lr, [])
         else (WiiU.mk_state .send_ext_init2 it 0 lk lr, []))
       else (WiiU.mk_state .wait_ext_init1_ack it ir lk lr, []))) ∧
    (∀ it ir lk lr now, WiiU.wii_u_task (WiiU.mk_state .wait_ext_init2_ack it ir lk lr)
        now true none =
      (if time_reached now it then
        (if ir + 1 < WiiU.WII_U_INIT_MAX_RETRIES then
          (WiiU.mk_state .send_ext_init2 it (ir + 1) lk lr, [])
         else (WiiU.mk_state .read_ext_type it 0 lk lr, []))
       else (WiiU.mk_state .wait_ext_init2_ack it ir lk lr, []))) ∧
    (∀ it ir lk lr now, WiiU.wii_u_task (WiiU.mk_state .wait_ext_type it ir lk lr)
        now true none =
      (if time_reached now it then
        (if ir + 1 < WiiU.WII_U_INIT_MAX_RETRIES then
          (WiiU.mk_state .read_ext_type it (ir + 1) lk lr, [])
         else (WiiU.mk_state .send_report_mode it 0 lk lr, []))
       else (WiiU.mk_state .wait_ext_type it ir lk lr, []))) ∧
    (∀ it ir lk lr now, WiiU.wii_u_task (WiiU.mk_state .wait_report_ack it ir lk lr)
        now true none =
      (if time_reached now it then
        (if ir + 1 < WiiU.WII_U_INIT_MAX_RETRIES then
          (WiiU.mk_state .send_report_mode it (ir + 1) lk lr, [])
         else (WiiU.mk_state .send_led it 0 lk lr, []))
       else (WiiU.mk_state .wait_report_ack it ir lk lr, []))) ∧
    (∀ it ir lk lr now, WiiU.wii_u_task (WiiU.mk_state .wait_led_ack it ir lk lr)
        now true none =
      (if time_reached now it then
        (if ir + 1 < WiiU.WII_U_INIT_MAX_RETRIES then
          (WiiU.mk_state .send_led it (ir + 1) lk lr, [])
         else (WiiU.mk_state .ready it 0 now 0, []))
       else (WiiU.mk_state .wait_led_ack it ir lk lr, []))) ∧
    (∀ it ir lk lr now, WiiU.wii_u_task (WiiU.mk_state .ready it ir lk lr)
        now true none =
      (if time_elapsed_ge now lk (WiiU.WII_U_KEEPALIVE_MS * 1000) then
        (WiiU.mk_state .ready it ir now lr, [.status_req])
       else (WiiU.mk_state .ready it ir lk lr, []))) := by
  refine ⟨⟨by decide, by decide, by decide⟩, ?_, ?_, ?_, ?_, ?_, ?_, ?_, ?_, ?_⟩ <;>
    · intro it ir lk lr now
      simp only [WiiU.wii_u_task, WiiU.mk_state] <;> try split_ifs <;> try rfl

namespace Hotkeys

/-- Run a single registered hotkey over a trace of `hotkeys_check` calls
`(buttons, now)`, tagging each firing with the call's clock value. -/
def run_single (hk : HotkeyDef) (st : PlayerHoldState)
    (calls : List (Nat × Nat)) : PlayerHoldState × List (Nat × Nat) :=
  match calls with
  | [] => (st, [])
  | (b, t) :: rest =>
      let r := hotkeys_check [hk] st 0 b t
      let (st', fires') := run_single hk r.2.1 rest
      (st', (r.2.2.map (fun f => (t, f.2))) ++ fires')

/-- Specification of the claim's `on_hold` behavior over a block of calls
whose combo matches throughout, with the hold having started at `t1`: the
hotkey fires exactly once, at the first call where the held time reaches
`dur`, and never again within the block. -/
def spec_first_hold_fire (dur t1 : Nat) (calls : List (Nat × Nat)) :
    List (Nat × Nat) :=
  match calls with
  | [] => []
  | (_, t) :: rest =>
      if dur ≤ held_ms_of t t1 then [(t, held_ms_of t t1)]
      else spec_first_hold_fire dur t1 rest

end Hotkeys

/-- Wrapped held time from a call to itself is zero. -/
theorem held_ms_of_self (now : Nat) : Hotkeys.held_ms_of now now = 0 := by
  simp [Hotkeys.held_ms_of, u32]

/-- Matching step of a single non-`on_hold` hotkey whose combo is already
held: the shared hold start is kept, nothing fires. -/
theorem hk_step_match (req dur : Nat) (trig : Hotkeys.Trigger)
    (ht : trig ≠ .on_hold) (hb t1 b now : Nat)
    (hm : Hotkeys.buttons_match b req = true) :
    Hotkeys.hotkeys_check [⟨req, trig, dur, false⟩] ⟨hb, t1, [(true, false)]⟩
      0 b now = (b, ⟨b, t1, [(true, false)]⟩, []) := by
  simp [Hotkeys.hotkeys_check, Hotkeys.check_list, Hotkeys.check_one,
        Hotkeys.combo_step, hm, ht]

/-- First matching step of a single non-`on_hold` hotkey from an idle
state: the shared hold start is set to the call time, nothing fires. -/
theorem hk_step_press (req dur : Nat) (trig : Hotkeys.Trigger)
    (ht : trig ≠ .on_hold) (hb hs b now : Nat)
    (hm : Hotkeys.buttons_match b req = true) :
    Hotkeys.hotkeys_check [⟨req, trig, dur, false⟩] ⟨hb, hs, [(false, false)]⟩
      0 b now = (b, ⟨b, now, [(true, false)]⟩, []) := by
  simp [Hotkeys.hotkeys_check, Hotkeys.check_list, Hotkeys.check_one,
        Hotkeys.combo_step, hm, ht]

/-- Release step of a single `on_tap` hotkey: fires exactly when the held
time (from the shared hold start) is strictly below the duration. -/
theorem hk_step_release_tap (req dur hb t1 b now : Nat)
    (hr : Hotkeys.buttons_match b req = false) :
    Hotkeys.hotkeys_check [⟨req, .on_tap, dur, false⟩] ⟨hb, t1, [(true, false)]⟩
      0 b now =
    (b, ⟨b, t1, [(false, false)]⟩,
     if Hotkeys.held_ms_of now t1 < dur then [(0, Hotkeys.held_ms_of now t1)]
     else []) := by
  simp only [Hotkeys.hotkeys_check, Hotkeys.check_list, Hotkeys.check_one,
             Hotkeys.combo_step, hr]
  split_ifs <;> simp_all

/-- Release step of a single `on_release` hotkey: fires exactly when the
held time (from the shared hold start) reaches the duration. -/
theorem hk_step_release_rel (req dur hb t1 b now : Nat)
    (hr : Hotkeys.buttons_match b req = false) :
    Hotkeys.hotkeys_check [⟨req, .on_release, dur, false⟩]
      ⟨hb, t1, [(true, false)]⟩ 0 b now =
    (b, ⟨b, t1, [(false, false)]⟩,
     if dur ≤ Hotkeys.held_ms_of now t1 then [(0, Hotkeys.held_ms_of now t1)]
     else []) := by
  simp only [Hotkeys.hotkeys_check, Hotkeys.check_list, Hotkeys.check_one,
             Hotkeys.combo_step, hr]
  split_ifs <;> simp_all

/-- Matching step of a single `on_hold` hotkey that has not fired yet:
fires exactly when the held time reaches the duration, and latches
`triggered`. -/
theorem hk_step_match_hold (req dur hb t1 b now : Nat)
    (hm : Hotkeys.buttons_match b req = true) :
    Hotkeys.hotkeys_check [⟨req, .on_hold, dur, false⟩] ⟨hb, t1, [(true, false)]⟩
      0 b now =
    (b, ⟨b, t1, [(true, decide (dur ≤ Hotkeys.held_ms_of now t1))]⟩,
     if dur ≤ Hotkeys.held_ms_of now t1 then [(0, Hotkeys.held_ms_of now t1)]
     else []) := by
  simp only [Hotkeys.hotkeys_check, Hotkeys.check_list, Hotkeys.check_one,
             Hotkeys.combo_step, hm]
  split_ifs <;> simp_all

/-- First matching step of a single `on_hold` hotkey from an idle state:
the hold start is set to the call time; with zero held time it fires only
when the duration is 0. -/
theorem hk_step_press_hold (req dur hb hs b now : Nat)
    (hm : Hotkeys.buttons_match b req = true) :
    Hotkeys.hotkeys_check [⟨req, .on_hold, dur, false⟩] ⟨hb, hs, [(false, false)]⟩
      0 b now =
    (b, ⟨b, now, [(true, decide (dur = 0))]⟩,
     if dur = 0 then [(0, 0)] else []) := by
  simp only [Hotkeys.hotkeys_check, Hotkeys.check_list, Hotkeys.check_one,
             Hotkeys.combo_step, hm]
  have h0 := held_ms_of_self now
  split_ifs <;> simp_all

/-- Matching step of a single `on_hold` hotkey that has already fired:
nothing fires and `triggered` stays latched. -/
theorem hk_step_match_hold_done (req dur hb t1 b now : Nat)
    (hm : Hotkeys.buttons_match b req = true) :
    Hotkeys.hotkeys_check [⟨req, .on_hold, dur, false⟩] ⟨hb, t1, [(true, true)]⟩
      0 b now = (b, ⟨b, t1, [(true, true)]⟩, []) := by
  simp [Hotkeys.hotkeys_check, Hotkeys.check_list, Hotkeys.check_one,
        Hotkeys.combo_step, hm]

/-- Tap block: with the combo held throughout (shared hold start `t1`) and
then released, a single `on_tap` hotkey fires at the release exactly when
the held time stayed below the duration. -/
theorem hk_run_block_tap (req dur t1 : Nat) :
    ∀ (ts : List (Nat × Nat)) (hb : Nat),
      (∀ p ∈ ts, Hotkeys.buttons_match p.1 req = true) →
      ∀ brel trel, Hotkeys.buttons_match brel req = false →
      (Hotkeys.run_single ⟨req, .on_tap, dur, false⟩ ⟨hb, t1, [(true, false)]⟩
        (ts ++ [(brel, trel)])).2 =
      (if Hotkeys.held_ms_of trel t1 < dur
       then [(trel, Hotkeys.held_ms_of trel t1)] else []) := by
  intro ts
  induction ts with
  | nil =>
      intro hb _ brel trel hr
      simp only [List.nil_append, Hotkeys.run_single,
                 hk_step_release_tap req dur hb t1 brel trel hr]
      split_ifs <;> simp [Hotkeys.run_single]
  | cons p ts ih =>
      intro hb hall brel trel hr
      obtain ⟨b, t⟩ := p
      have hm : Hotkeys.buttons_match b req = true := hall (b, t) (by simp)
      simp only [List.cons_append, Hotkeys.run_single,
                 hk_step_match req dur .on_tap (by decide) hb t1 b t hm]
      simpa using ih b (fun q hq => hall q (List.mem_cons_of_mem _ hq)) brel trel hr

/-- Release block: with the combo held throughout and then released, a
single `on_release` hotkey fires at the release exactly when the held time
reached the duration. -/
theorem hk_run_block_rel (req dur t1 : Nat) :
    ∀ (ts : List (Nat × Nat)) (hb : Nat),
      (∀ p ∈ ts, Hotkeys.buttons_match p.1 req = true) →
      ∀ brel trel, Hotkeys.buttons_match brel req = false →
      (Hotkeys.run_single ⟨req, .on_release, dur, false⟩ ⟨hb, t1, [(true, false)]⟩
        (ts ++ [(brel, trel)])).2 =
      (if dur ≤ Hotkeys.held_ms_of trel t1
       then [(trel, Hotkeys.held_ms_of trel t1)] else []) := by
  intro ts
  induction ts with
  | nil =>
      intro hb _ brel trel hr
      simp only [List.nil_append, Hotkeys.run_single,
                 hk_step_release_rel req dur hb t1 brel trel hr]
      split_ifs <;> simp [Hotkeys.run_single]
  | cons p ts ih =>
      intro hb hall brel trel hr
      obtain ⟨b, t⟩ := p
      have hm : Hotkeys.buttons_match b req = true := hall (b, t) (by simp)
      simp only [List.cons_append, Hotkeys.run_single,
                 hk_step_match req dur .on_release (by decide) hb t1 b t hm]
      simpa using ih b (fun q hq => hall q (List.mem_cons_of_mem _ hq)) brel trel hr

/-- Hold block after the fire: while the combo stays held, a latched
`on_hold` hotkey never fires again. -/
theorem hk_run_block_hold_done (req dur t1 : Nat) :
    ∀ (ts : List (Nat × Nat)) (hb : Nat),
      (∀ p ∈ ts, Hotkeys.buttons_match p.1 req = true) →
      ∃ hb', Hotkeys.run_single ⟨req, .on_hold, dur, false⟩
        ⟨hb, t1, [(true, true)]⟩ ts = (⟨hb', t1, [(true, true)]⟩, []) := by
  intro ts
  induction ts with
  | nil => intro hb _; exact ⟨hb, rfl⟩
  | cons p ts ih =>
      intro hb hall
      obtain ⟨b, t⟩ := p
      have hm : Hotkeys.buttons_match b req = true := hall (b, t) (by simp)
      obtain ⟨hb', hrun⟩ := ih b (fun q hq => hall q (List.mem_cons_of_mem _ hq))
      refine ⟨hb', ?_⟩
      simp only [Hotkeys.run_single,
                 hk_step_match_hold_done req dur hb t1 b t hm, hrun]
      simp

/-- Hold block: while the combo stays held (shared hold start `t1`), a
single `on_hold` hotkey fires exactly once, at the first call where the
held time reaches the duration. -/
theorem hk_run_block_hold (req dur t1 : Nat) :
    ∀ (ts : List (Nat × Nat)) (hb : Nat),
      (∀ p ∈ ts, Hotkeys.buttons_match p.1 req = true) →
      (Hotkeys.run_single ⟨req, .on_hold, dur, false⟩ ⟨hb, t1, [(true, false)]⟩
        ts).2 = Hotkeys.spec_first_hold_fire dur t1 ts := by
  intro ts
  induction ts with
  | nil => intro hb _; rfl
  | cons p ts ih =>
      intro hb hall
      obtain ⟨b, t⟩ := p
      have hm : Hotkeys.buttons_match b req = true := hall (b, t) (by simp)
      have hall' : ∀ q ∈ ts, Hotkeys.buttons_match q.1 req = true :=
        fun q hq => hall q (List.mem_cons_of_mem _ hq)
      by_cases hd : dur ≤ Hotkeys.held_ms_of t t1
      · obtain ⟨hb', hrun⟩ := hk_run_block_hold_done req dur t1 ts b hall'
        have hdec : decide (dur ≤ Hotkeys.held_ms_of t t1) = true := by
          simpa using hd
        simp only [Hotkeys.run_single,
                   hk_step_match_hold req dur hb t1 b t hm, hdec,
                   Hotkeys.spec_first_hold_fire, hrun]
        simp [hd]
      · simp only [Hotkeys.run_single,
                   hk_step_match_hold req dur hb t1 b t hm,
                   Hotkeys.spec_first_hold_fire]
        rw [if_neg hd, if_neg hd]
        have hdec : decide (dur ≤ Hotkeys.held_ms_of t t1) = false := by
          simpa using hd
        rw [hdec]
        simpa using ih b hall'

/-- Two per-player tap hotkeys used to exhibit the shared-hold-start
interaction: hotkey 0 requires button 1, hotkey 1 requires buttons 1|2,
both `on_tap` with a 100 ms duration. -/
def c7_hotkeys : List Hotkeys.HotkeyDef :=
  [⟨1, .on_tap, 100, false⟩, ⟨3, .on_tap, 100, false⟩]

/-- Fresh per-player hold state for the two hotkeys above. -/
def c7_reset_state : Hotkeys.PlayerHoldState :=
  ⟨0, 0, [(false, false), (false, false)]⟩

/-- C7 counterexample.  Hotkey 0 (mask 1, `on_tap`, 100 ms) is matched
continuously from the call at t=0 to the release at t=150, so per the claim
it was held 150 ms ≥ 100 ms and must not fire.  But when hotkey 1's combo
(mask 3) newly starts matching at t=100, the loop overwrites the player's
single shared `hold_start_ms` with 100; at the release both hotkeys compute
held = 50 < 100 and both fire. -/
theorem c7_counterexample :
    (Hotkeys.hotkeys_check c7_hotkeys
        (Hotkeys.hotkeys_check c7_hotkeys
            (Hotkeys.hotkeys_check c7_hotkeys c7_reset_state 0 1 0).2.1
            0 3 100).2.1
        0 0 150).2.2 = [(0, 50), (1, 50)] ∧
    Hotkeys.buttons_match 1 1 = true ∧
    Hotkeys.buttons_match 3 1 = true ∧
    ¬ (Hotkeys.held_ms_of 150 0 < 100) := by
  decide

/-- C7: The hotkey detector's firing conditions hold with the held time
measured from the player's shared `hold_start_ms`, which is reset whenever
any registered combo newly starts matching; for a single registered
per-player hotkey this coincides with the claim as stated.  For a single
hotkey pressed at `t1`, held through `ts` and released at `trel`: `on_tap`
fires at the release iff held < duration; `on_release` fires at the release
iff held ≥ duration; `on_hold` fires once at the first call where held
reaches the duration (latched until release).  `hotkeys_check` accumulates
the player's buttons into the global OR, `hotkeys_check_global` resets the
accumulator to 0, and a global hotkey matches against the accumulated
OR. -/
theorem c7_amended_theorem (req dur b1 t1 brel trel : Nat)
    (ts : List (Nat × Nat))
    (hm1 : Hotkeys.buttons_match b1 req = true)
    (hall : ∀ p ∈ ts, Hotkeys.buttons_match p.1 req = true)
    (hrel : Hotkeys.buttons_match brel req = false)
    (hks : List Hotkeys.HotkeyDef) (st : Hotkeys.PlayerHoldState)
    (g b now hs0 : Nat) (gflags : List (Bool × Bool)) :
    (Hotkeys.run_single ⟨req, .on_tap, dur, false⟩ ⟨0, 0, [(false, false)]⟩
        ((b1, t1) :: (ts ++ [(brel, trel)]))).2 =
      (if Hotkeys.held_ms_of trel t1 < dur
       then [(trel, Hotkeys.held_ms_of trel t1)] else []) ∧
    (Hotkeys.run_single ⟨req, .on_release, dur, false⟩ ⟨0, 0, [(false, false)]⟩
        ((b1, t1) :: (ts ++ [(brel, trel)]))).2 =
      (if dur ≤ Hotkeys.held_ms_of trel t1
       then [(trel, Hotkeys.held_ms_of trel t1)] else []) ∧
    (Hotkeys.run_single ⟨req, .on_hold, dur, false⟩ ⟨0, 0, [(false, false)]⟩
        ((b1, t1) :: ts)).2 =
      Hotkeys.spec_first_hold_fire dur t1 ((b1, t1) :: ts) ∧
    (Hotkeys.hotkeys_check hks st g b now).1 = g ||| b ∧
    (Hotkeys.hotkeys_check_global hks ⟨g, hs0, gflags⟩ now).1.global_buttons = 0 ∧
    (Hotkeys.hotkeys_check_global [⟨req, .on_hold, 0, true⟩]
        ⟨g, hs0, [(false, false)]⟩ now).2 =
      (if Hotkeys.buttons_match g req then [(0, 0)] else []) := by
  refine ⟨?_, ?_, ?_, ?_, ?_, ?_⟩
  · simp only [Hotkeys.run_single,
               hk_step_press req dur .on_tap (by decide) 0 0 b1 t1 hm1]
    simpa using hk_run_block_tap req dur t1 ts b1 hall brel trel hrel
  · simp only [Hotkeys.run_single,
               hk_step_press req dur .on_release (by decide) 0 0 b1 t1 hm1]
    simpa using hk_run_block_rel req dur t1 ts b1 hall brel trel hrel
  · by_cases hd0 : dur = 0
    · subst hd0
      obtain ⟨hb', hrun⟩ := hk_run_block_hold_done req 0 t1 ts b1 hall
      simp [Hotkeys.run_single, hk_step_press_hold req 0 0 0 b1 t1 hm1, hrun,
            Hotkeys.spec_first_hold_fire, held_ms_of_self]
    · have hdec : decide (dur = 0) = false := by simpa using hd0
      simp only [Hotkeys.run_single,
                 hk_step_press_hold req dur 0 0 b1 t1 hm1, hdec, if_neg hd0]
      simp only [List.map_nil, List.nil_append]
      rw [hk_run_block_hold req dur t1 ts b1 hall]
      simp [Hotkeys.spec_first_hold_fire, held_ms_of_self, Nat.le_zero, hd0]
  · rcases hq : Hotkeys.check_list hks st.flags st.hold_start_ms b now 0 with
      ⟨hs', flags', fires⟩
    simp [Hotkeys.hotkeys_check, hq]
  · rcases hq : Hotkeys.check_list_global hks gflags hs0 g now 0 with
      ⟨hs', flags', fires⟩
    simp [Hotkeys.hotkeys_check_global, hq]
  · by_cases hg : Hotkeys.buttons_match g req = true
    · simp [Hotkeys.hotkeys_check_global, Hotkeys.check_list_global,
            Hotkeys.check_one_global, Hotkeys.combo_step, hg, held_ms_of_self]
    · have hg' : Hotkeys.buttons_match g req = false := by simpa using hg
      simp [Hotkeys.hotkeys_check_global, Hotkeys.check_list_global,
            Hotkeys.check_one_global, Hotkeys.combo_step, hg']

/-- Concrete instance of the amended C7 behavior: hotkey mask 1, duration
100 ms, pressed at t=0, held at t=50, released at t=120. -/
theorem c7_witness :
    (Hotkeys.run_single ⟨1, .on_tap, 100, false⟩ ⟨0, 0, [(false, false)]⟩
        ((1, 0) :: ([(1, 50)] ++ [(0, 120)]))).2 =
      (if Hotkeys.held_ms_of 120 0 < 100
       then [(120, Hotkeys.held_ms_of 120 0)] else []) ∧
    (Hotkeys.run_single ⟨1, .on_release, 100, false⟩ ⟨0, 0, [(false, false)]⟩
        ((1, 0) :: ([(1, 50)] ++ [(0, 120)]))).2 =
      (if 100 ≤ Hotkeys.held_ms_of 120 0
       then [(120, Hotkeys.held_ms_of 120 0)] else []) ∧
    (Hotkeys.run_single ⟨1, .on_hold, 100, false⟩ ⟨0, 0, [(false, false)]⟩
        ((1, 0) :: [(1, 50)])).2 =
      Hotkeys.spec_first_hold_fire 100 0 ((1, 0) :: [(1, 50)]) ∧
    (Hotkeys.hotkeys_check [] ⟨0, 0, []⟩ 5 2 7).1 = 5 ||| 2 ∧
    (Hotkeys.hotkeys_check_global [] ⟨5, 0, []⟩ 7).1.global_buttons = 0 ∧
    (Hotkeys.hotkeys_check_global [⟨1, .on_hold, 0, true⟩]
        ⟨5, 0, [(false, false)]⟩ 7).2 =
      (if Hotkeys.buttons_match 5 1 then [(0, 0)] else []) :=
  c7_amended_theorem 1 100 1 0 0 120 [(1, 50)] (by decide) (by decide)
    (by decide) [] ⟨0, 0, []⟩ 5 2 7 0 []
